import Mathlib

/-!
The tissue machine of `src/state/state2.cpp`.

A shallow embedding of the State-pattern example: the context class
`TissueMachine`, its four concrete state classes and the three calls it opens
to `main`.

* The pointer `TissueMachine::state` is either one of the four state objects
  the constructor allocates, or it has never been assigned.  It is embedded as
  `Option State`, `none` being the unassigned pointer.
* `count` is a C++ `int`.  The only arithmetic on it is `getCount() - 1`, which
  runs under the guard `getCount() > 0`, so it cannot wrap; `count` is an `Int`.
* A method of a state class acts on the machine through `setState` and
  `setCount` and writes lines to `std::cout`.  It is embedded as a function
  from the machine to the machine afterwards, paired with the lines written.
* A call through the unassigned pointer has no defined behaviour: the calls of
  the machine return `none` there.
-/

namespace StatePattern

/-- The four state objects a `TissueMachine` owns, named after the pointer
fields `soldOutState`, `noQuarterState`, `hasQuarterState`, `soldState`. -/
inductive State where
  | soldOutState
  | noQuarterState
  | hasQuarterState
  | soldState
  deriving DecidableEq, Repr

/-- The context class: the `state` pointer (`none` while unassigned) and the
tissue `count`. -/
structure TissueMachine where
  state : Option State
  count : Int
  deriving DecidableEq, Repr

/-- What a method leaves behind: the machine, and the lines it wrote. -/
abbrev Effect := TissueMachine × List String

namespace TissueMachine

/-- `void setState(State* state)`. -/
def setState (this : TissueMachine) (state : State) : TissueMachine :=
  { this with state := some state }

/-- `int getCount()`. -/
def getCount (this : TissueMachine) : Int := this.count

/-- `void setCount(int numbers)`. -/
def setCount (this : TissueMachine) (numbers : Int) : TissueMachine :=
  { this with count := numbers }

/-- `State* getHasQuarterState()`. -/
def getHasQuarterState (_this : TissueMachine) : State := State.hasQuarterState

/-- `State* getNoQuarterState()`. -/
def getNoQuarterState (_this : TissueMachine) : State := State.noQuarterState

/-- `State* getSoldState()`. -/
def getSoldState (_this : TissueMachine) : State := State.soldState

/-- `State* getSoldOutState()`. -/
def getSoldOutState (_this : TissueMachine) : State := State.soldOutState

end TissueMachine

namespace SoldOutState

/-- `void SoldOutState::insertQuarter()`. -/
def insertQuarter (tissueMachine : TissueMachine) : Effect :=
  (tissueMachine, ["机器无纸巾，已退回硬币！"])

/-- `void SoldOutState::ejectQuarter()`. -/
def ejectQuarter (tissueMachine : TissueMachine) : Effect :=
  (tissueMachine, ["自动售货机根本没有硬币！"])

/-- `void SoldOutState::turnCrank()`. -/
def turnCrank (tissueMachine : TissueMachine) : Effect :=
  (tissueMachine, ["机器无纸巾，请不要操作机器"])

/-- `void SoldOutState::dispense()`: empty body. -/
def dispense (tissueMachine : TissueMachine) : Effect :=
  (tissueMachine, [])

end SoldOutState

namespace NoQuarterState

/-- `void NoQuarterState::insertQuarter()`. -/
def insertQuarter (tissueMachine : TissueMachine) : Effect :=
  (tissueMachine.setState tissueMachine.getHasQuarterState, ["已投币！"])

/-- `void NoQuarterState::ejectQuarter()`. -/
def ejectQuarter (tissueMachine : TissueMachine) : Effect :=
  (tissueMachine, ["自动售货机根本没有硬币！"])

/-- `void NoQuarterState::turnCrank()`. -/
def turnCrank (tissueMachine : TissueMachine) : Effect :=
  (tissueMachine, ["请投币"])

/-- `void NoQuarterState::dispense()`: empty body. -/
def dispense (tissueMachine : TissueMachine) : Effect :=
  (tissueMachine, [])

end NoQuarterState

namespace HasQuarterState

/-- `void HasQuarterState::insertQuarter()`. -/
def insertQuarter (tissueMachine : TissueMachine) : Effect :=
  (tissueMachine, ["已投币！请不要重复投币！已退回重复投币！"])

/-- `void HasQuarterState::ejectQuarter()`. -/
def ejectQuarter (tissueMachine : TissueMachine) : Effect :=
  (tissueMachine.setState tissueMachine.getNoQuarterState, ["已取币！"])

/-- `void HasQuarterState::turnCrank()`. -/
def turnCrank (tissueMachine : TissueMachine) : Effect :=
  (tissueMachine.setState tissueMachine.getSoldState, ["请等待自动售货机出纸巾！"])

/-- `void HasQuarterState::dispense()`: empty body. -/
def dispense (tissueMachine : TissueMachine) : Effect :=
  (tissueMachine, [])

end HasQuarterState

namespace SoldState

/-- `void SoldState::insertQuarter()`. -/
def insertQuarter (tissueMachine : TissueMachine) : Effect :=
  (tissueMachine, ["请等待自动售货机出纸巾！请不要投币！已退回投币！"])

/-- `void SoldState::ejectQuarter()`. -/
def ejectQuarter (tissueMachine : TissueMachine) : Effect :=
  (tissueMachine.setState tissueMachine.getNoQuarterState,
    ["请等待自动售货机出纸巾！无法取回已消费的硬币！"])

/-- `void SoldState::turnCrank()`. -/
def turnCrank (tissueMachine : TissueMachine) : Effect :=
  (tissueMachine, ["请等待自动售货机出纸巾！已响应你的操作！"])

/-- `void SoldState::dispense()`: with tissues left, back to `noQuarterState`
and one tissue less; otherwise to `soldOutState`. -/
def dispense (tissueMachine : TissueMachine) : Effect :=
  if tissueMachine.getCount > 0 then
    let m1 := tissueMachine.setState tissueMachine.getNoQuarterState
    let m2 := m1.setCount (m1.getCount - 1)
    (m2, ["你的纸巾，请拿好！"])
  else
    (tissueMachine.setState tissueMachine.getSoldOutState,
      ["已退回你的硬币！纸巾已卖光，等待进货！"])

end SoldState

namespace State

/-- Virtual dispatch of `State::insertQuarter`. -/
def insertQuarter : State → TissueMachine → Effect
  | soldOutState => SoldOutState.insertQuarter
  | noQuarterState => NoQuarterState.insertQuarter
  | hasQuarterState => HasQuarterState.insertQuarter
  | soldState => SoldState.insertQuarter

/-- Virtual dispatch of `State::ejectQuarter`. -/
def ejectQuarter : State → TissueMachine → Effect
  | soldOutState => SoldOutState.ejectQuarter
  | noQuarterState => NoQuarterState.ejectQuarter
  | hasQuarterState => HasQuarterState.ejectQuarter
  | soldState => SoldState.ejectQuarter

/-- Virtual dispatch of `State::turnCrank`. -/
def turnCrank : State → TissueMachine → Effect
  | soldOutState => SoldOutState.turnCrank
  | noQuarterState => NoQuarterState.turnCrank
  | hasQuarterState => HasQuarterState.turnCrank
  | soldState => SoldState.turnCrank

/-- Virtual dispatch of `State::dispense`. -/
def dispense : State → TissueMachine → Effect
  | soldOutState => SoldOutState.dispense
  | noQuarterState => NoQuarterState.dispense
  | hasQuarterState => HasQuarterState.dispense
  | soldState => SoldState.dispense

end State

namespace TissueMachine

/-- `void TissueMachine::insertQuarter()`: `state->insertQuarter()`. -/
def insertQuarter (this : TissueMachine) : Option Effect :=
  match this.state with
  | none => none
  | some state => some (state.insertQuarter this)

/-- `void TissueMachine::ejectQuarter()`: `state->ejectQuarter()`. -/
def ejectQuarter (this : TissueMachine) : Option Effect :=
  match this.state with
  | none => none
  | some state => some (state.ejectQuarter this)

/-- `void TissueMachine::turnCrank()`: `state->turnCrank()` and then
`state->dispense()`, the second call going through the pointer as the first
call left it. -/
def turnCrank (this : TissueMachine) : Option Effect :=
  match this.state with
  | none => none
  | some state =>
    let r1 := state.turnCrank this
    match r1.1.state with
    | none => none
    | some state1 =>
      let r2 := state1.dispense r1.1
      some (r2.1, r1.2 ++ r2.2)

end TissueMachine

set_option linter.dupNamespace false

/-- The constructor `TissueMachine(int numbers)`: the four state objects are
allocated, `count` is set, and `state` is assigned only inside
`if (count > 0)`. -/
def TissueMachine.TissueMachine (numbers : Int) : StatePattern.TissueMachine :=
  let this : StatePattern.TissueMachine := { state := none, count := numbers }
  if this.count > 0 then this.setState this.getNoQuarterState else this

/-- The calls a driver such as `main` can make on a machine. -/
inductive Stimulus where
  | insertQuarter
  | ejectQuarter
  | turnCrank
  deriving DecidableEq, Repr

/-- One call of the driver on the machine. -/
def call (m : TissueMachine) : Stimulus → Option Effect
  | Stimulus.insertQuarter => m.insertQuarter
  | Stimulus.ejectQuarter => m.ejectQuarter
  | Stimulus.turnCrank => m.turnCrank

/-- A driver: the calls of the list made one after the other, each on the
machine the one before left, the lines written being collected in order. -/
def run (m : TissueMachine) : List Stimulus → Option Effect
  | [] => some (m, [])
  | s :: rest =>
    match call m s with
    | none => none
    | some r1 =>
      match run r1.1 rest with
      | none => none
      | some r2 => some (r2.1, r1.2 ++ r2.2)

end StatePattern

namespace StatePattern
open State Stimulus

/-- The calls `insertQuarter(); turnCrank();` of one purchase, `k` times over. -/
def purchases : Nat → List Stimulus
  | 0 => []
  | k + 1 => insertQuarter :: turnCrank :: purchases k

/-- The lines one would read on `std::cout` after `k` successful purchases. -/
def purchaseLines : Nat → List String
  | 0 => []
  | k + 1 => "已投币！" :: "请等待自动售货机出纸巾！" :: "你的纸巾，请拿好！" :: purchaseLines k

/-- The line each call writes while the machine is in `soldOutState`: the
`std::cout` argument of `SoldOutState::insertQuarter`, `ejectQuarter` and
`turnCrank` (`SoldOutState::dispense` writes nothing). -/
def soldOutLine : Stimulus → String
  | Stimulus.insertQuarter => "机器无纸巾，已退回硬币！"
  | Stimulus.ejectQuarter => "自动售货机根本没有硬币！"
  | Stimulus.turnCrank => "机器无纸巾，请不要操作机器"

/-- The states a machine is in between two calls of a driver, once the
constructor has assigned `state`: the pointer is one of `noQuarterState`,
`hasQuarterState`, `soldOutState`, the count is not negative, and
`soldOutState` goes with an empty machine. -/
def Settled (m : TissueMachine) : Prop :=
  (m.state = some noQuarterState ∨ m.state = some hasQuarterState ∨
      m.state = some soldOutState) ∧
    0 ≤ m.count ∧ (m.state = some soldOutState → m.count = 0)

end StatePattern

/-!
The criteria of `src/filter/filter.cpp`.

A `Criteria` is an object with the one virtual method `meetCriteria`, taking
and returning a `std::list<Person>` by value; it is embedded as that method, a
function on lists.  The member `m_list` of the three leaf criteria is cleared
at the start of every call and returned by value, so a call depends on its
argument only.  A range-for loop is a left fold, `push_back` appends at the
end, and `std::string` comparison with `==` is equality of strings.
-/

namespace FilterPattern

/-- The class `Person`: a name, a gender and a marital status. -/
structure Person where
  m_name : String
  m_gender : String
  m_maritalStatus : String
  deriving DecidableEq, Repr

namespace Person

/-- `std::string getName() const`. -/
def getName (this : Person) : String := this.m_name

/-- `std::string getGender() const`. -/
def getGender (this : Person) : String := this.m_gender

/-- `std::string getMaritalStatus() const`. -/
def getMaritalStatus (this : Person) : String := this.m_maritalStatus

end Person

/-- The abstract class `Criteria`, as its virtual method `meetCriteria`. -/
abbrev Criteria := List Person → List Person

namespace CriteriaMale

/-- `CriteriaMale::meetCriteria`: `m_list` is cleared, then every person whose
gender is `"Male"` is pushed at its back. -/
def meetCriteria (persons : List Person) : List Person :=
  persons.foldl
    (fun m_list person =>
      if person.getGender = "Male" then m_list ++ [person] else m_list)
    []

end CriteriaMale

namespace CriteriaFemale

/-- `CriteriaFemale::meetCriteria`: `m_list` is cleared, then every person
whose gender is `"Female"` is pushed at its back. -/
def meetCriteria (persons : List Person) : List Person :=
  persons.foldl
    (fun m_list person =>
      if person.getGender = "Female" then m_list ++ [person] else m_list)
    []

end CriteriaFemale

namespace CriteriaSingle

/-- `CriteriaSingle::meetCriteria`: `m_list` is cleared, then every person
whose marital status is `"Single"` is pushed at its back. -/
def meetCriteria (persons : List Person) : List Person :=
  persons.foldl
    (fun m_list person =>
      if person.getMaritalStatus = "Single" then m_list ++ [person] else m_list)
    []

end CriteriaSingle

namespace AndCriteria

/-- `AndCriteria::meetCriteria`: the second criteria applied to what the first
one returns. -/
def meetCriteria (m_criteria m_otherCriteria : Criteria) (persons : List Person) :
    List Person :=
  let firstCriteriaPersons := m_criteria persons
  m_otherCriteria firstCriteriaPersons

end AndCriteria

namespace OrCriteria

/-- `OrCriteria::meetCriteria`: both criteria are applied to `persons`; every
person the second one returns is pushed at the back of what the first one
returned, unless `std::find_if` finds there a person of the same name. -/
def meetCriteria (m_criteria m_otherCriteria : Criteria) (persons : List Person) :
    List Person :=
  let firstCriteriaPersons := m_criteria persons
  let otherCriteriaPersons := m_otherCriteria persons
  otherCriteriaPersons.foldl
    (fun firstCriteriaPersons person =>
      if (firstCriteriaPersons.find?
          (fun p => decide (person.getName = p.getName))).isNone then
        firstCriteriaPersons ++ [person]
      else firstCriteriaPersons)
    firstCriteriaPersons

end OrCriteria

/-- The object `singleMale` of `main`: `AndCriteria(single, male)`. -/
def singleMale : Criteria :=
  AndCriteria.meetCriteria CriteriaSingle.meetCriteria CriteriaMale.meetCriteria

/-- The object `singleOrFemale` of `main`: `OrCriteria(single, female)`. -/
def singleOrFemale : Criteria :=
  OrCriteria.meetCriteria CriteriaSingle.meetCriteria CriteriaFemale.meetCriteria

end FilterPattern

/-!
The iterator of `src/iterator/iterator.cpp`.

`int` values are embedded as `Int`: the only arithmetic is `++i` and
`++m_nIndex`, both under a guard that keeps the value below a size that is
itself an `int`.  The array `m_pData` is a list of cells, a cell being `none`
until it is written; reading a cell that is not there or not written has no
defined value and gives `none`.  `new int[m_nSize]` with a negative size throws,
so the constructor of the aggregate gives `none` there.
-/

namespace IteratorPattern

/-- The class `ConcreateAggregate`: the size and the cells of the array. -/
structure ConcreateAggregate where
  m_nSize : Int
  m_pData : List (Option Int)
  deriving DecidableEq, Repr

namespace ConcreateAggregate

/-- The loop `for (int i = 0; i < nSize; ++i) m_pData[i] = i;` of the
constructor, from the value `i` on. -/
def fill (nSize : Int) (i : Int) (m_pData : List (Option Int)) : List (Option Int) :=
  if i < nSize then fill nSize (i + 1) (m_pData.set i.toNat (some i)) else m_pData
termination_by (nSize - i).toNat
decreasing_by omega

/-- `int getSize()`. -/
def getSize (this : ConcreateAggregate) : Int := this.m_nSize

/-- `int getItem(int nIndex)`: the cell `m_pData[nIndex]` when
`nIndex < m_nSize`, and -1 otherwise. -/
def getItem (this : ConcreateAggregate) (nIndex : Int) : Option Int :=
  if nIndex < this.m_nSize then
    if 0 ≤ nIndex then (this.m_pData[nIndex.toNat]?).join else none
  else some (-1)

end ConcreateAggregate

set_option linter.dupNamespace false

/-- The constructor `ConcreateAggregate(int nSize)`: an array of `m_nSize`
cells is allocated and cell `i` is set to `i`. -/
def ConcreateAggregate.ConcreateAggregate (nSize : Int) :
    Option IteratorPattern.ConcreateAggregate :=
  if nSize < 0 then none
  else
    some { m_nSize := nSize,
           m_pData := ConcreateAggregate.fill nSize 0 (List.replicate nSize.toNat none) }

/-- The class `ConcreateIterater`: the aggregate it points to, which nothing
changes once it is built, and the index. -/
structure ConcreateIterater where
  m_pConcreateAggregate : ConcreateAggregate
  m_nIndex : Int
  deriving DecidableEq, Repr

namespace ConcreateIterater

/-- `void first()`. -/
def first (this : ConcreateIterater) : ConcreateIterater :=
  { this with m_nIndex := 0 }

/-- `void next()`. -/
def next (this : ConcreateIterater) : ConcreateIterater :=
  if this.m_nIndex < this.m_pConcreateAggregate.getSize then
    { this with m_nIndex := this.m_nIndex + 1 }
  else this

/-- `bool isDone()`. -/
def isDone (this : ConcreateIterater) : Bool :=
  decide (this.m_nIndex = this.m_pConcreateAggregate.getSize)

/-- `int currentItem()`. -/
def currentItem (this : ConcreateIterater) : Option Int :=
  this.m_pConcreateAggregate.getItem this.m_nIndex

end ConcreateIterater

/-- The constructor `ConcreateIterater(Aggregate* pAggregate)`. -/
def ConcreateIterater.ConcreateIterater (pAggregate : IteratorPattern.ConcreateAggregate) :
    IteratorPattern.ConcreateIterater :=
  { m_pConcreateAggregate := pAggregate, m_nIndex := 0 }

/-- `Iterator* ConcreateAggregate::createIterater()`. -/
def ConcreateAggregate.createIterater (this : IteratorPattern.ConcreateAggregate) :
    IteratorPattern.ConcreateIterater :=
  IteratorPattern.ConcreateIterater.ConcreateIterater this

/-- The loop of `main` once `first()` has run: while `isDone()` is false,
`currentItem()` is written and `next()` is called.  The result is the list of
the items written; `fuel` bounds the number of times the body runs, and the
result is `none` when that is not enough or when an item has no defined
value. -/
def loop : Nat → ConcreateIterater → Option (List Int)
  | 0, pIterator => if pIterator.isDone then some [] else none
  | fuel + 1, pIterator =>
    if pIterator.isDone then some []
    else
      match pIterator.currentItem with
      | none => none
      | some item => (loop fuel pIterator.next).map (fun items => item :: items)

/-- The traversal of `main`:
`for (pIterator->first(); !pIterator->isDone(); pIterator->next())` writing
`pIterator->currentItem()`. -/
def traverse (fuel : Nat) (pIterator : ConcreateIterater) : Option (List Int) :=
  loop fuel pIterator.first

/-- What `main` does with a size `nSize`: the aggregate is built, an iterator
is created from it, and the traversal runs. -/
def main (fuel : Nat) (nSize : Int) : Option (List Int) :=
  match ConcreateAggregate.ConcreateAggregate nSize with
  | none => none
  | some pAggregate => traverse fuel pAggregate.createIterater

/-- The numbers `0, 1, ..., n - 1`. -/
def upTo (n : Nat) : List Int := (List.range n).map (fun (i : Nat) => (i : Int))

end IteratorPattern

/-!
The expressions of `src/interpreter/interpreter.cpp`.

A `std::string` is embedded as a `String`, and `std::string::find` as a search
through its list of characters.
-/

namespace InterpreterPattern

/-- `std::string::find(str)` on lists of characters, as the C++ standard
describes it: the lowest position at which `str` occurs in the string, and
`none` (for `npos`) when there is none. -/
def find : List Char → List Char → Option Nat
  | [], str => if str.isPrefixOf [] then some 0 else none
  | c :: rest, str =>
    if str.isPrefixOf (c :: rest) then some 0
    else (find rest str).map (fun pos => pos + 1)

/-- The classes deriving from `Expression`, with their members. -/
inductive Expression where
  | TerminalExpression (m_data : String)
  | OrExpression (m_expr1 m_expr2 : Expression)
  | AndExpression (m_expr1 m_expr2 : Expression)
  deriving Repr

/-- The virtual method `bool interpret(std::string context)` of the three
classes. -/
def Expression.interpret : Expression → String → Bool
  | Expression.TerminalExpression m_data, context =>
    if find context.data m_data.data ≠ none then true else false
  | Expression.OrExpression m_expr1 m_expr2, context =>
    m_expr1.interpret context || m_expr2.interpret context
  | Expression.AndExpression m_expr1 m_expr2, context =>
    m_expr1.interpret context && m_expr2.interpret context

/-- `getMaleExpression()`. -/
def getMaleExpression : Expression :=
  let robert := Expression.TerminalExpression "Robert"
  let john := Expression.TerminalExpression "John"
  Expression.OrExpression robert john

/-- `getMarriedWomanExpression()`. -/
def getMarriedWomanExpression : Expression :=
  let julie := Expression.TerminalExpression "Julie"
  let married := Expression.TerminalExpression "Married"
  Expression.AndExpression julie married

end InterpreterPattern

/-!
The memento of `src/memento/memento.cpp`.

A `std::shared_ptr<Memento>` points to an object that nothing changes once it
is built, so it is embedded as the `Memento` itself.  `m_mementoList[index]`
has no defined value outside the vector: `get` gives `none` there.
-/

namespace MementoPattern

set_option linter.dupNamespace false

/-- The class `Memento`, with its constructor `Memento(std::string state)`. -/
structure Memento where
  Memento ::
  m_state : String
  deriving DecidableEq, Repr

/-- `std::string Memento::getState() const`. -/
def Memento.getState (this : MementoPattern.Memento) : String := this.m_state

/-- The class `Originator`; its implicit constructor leaves `m_state` empty. -/
structure Originator where
  m_state : String := ""
  deriving DecidableEq, Repr

namespace Originator

/-- `void setState(std::string state)`. -/
def setState (this : Originator) (state : String) : Originator :=
  { this with m_state := state }

/-- `std::string getState() const`. -/
def getState (this : Originator) : String := this.m_state

/-- `std::shared_ptr<Memento> saveStateToMemento()`. -/
def saveStateToMemento (this : Originator) : Memento :=
  Memento.Memento this.m_state

/-- `void getStateFromMemento(std::shared_ptr<Memento> memento)`. -/
def getStateFromMemento (this : Originator) (memento : Memento) : Originator :=
  { this with m_state := memento.getState }

end Originator

/-- The class `CareTaker`; its implicit constructor leaves the vector empty. -/
structure CareTaker where
  m_mementoList : List Memento := []
  deriving DecidableEq, Repr

namespace CareTaker

/-- `void add(std::shared_ptr<Memento> memento)`. -/
def add (this : CareTaker) (memento : Memento) : CareTaker :=
  { this with m_mementoList := this.m_mementoList ++ [memento] }

/-- `std::shared_ptr<Memento> get(int index)`: `m_mementoList[index]`. -/
def get (this : CareTaker) (index : Int) : Option Memento :=
  if 0 ≤ index then this.m_mementoList[index.toNat]? else none

end CareTaker

/-- The function `main`: the three lines it writes. -/
def main : Option (List String) :=
  let originator : Originator := {}
  let careTaker : CareTaker := {}
  let originator := originator.setState "State #1"
  let originator := originator.setState "State #2"
  let careTaker := careTaker.add originator.saveStateToMemento
  let originator := originator.setState "State #3"
  let careTaker := careTaker.add originator.saveStateToMemento
  let originator := originator.setState "State #4"
  let line1 := "Current State: " ++ originator.getState
  match careTaker.get 0 with
  | none => none
  | some memento0 =>
    let originator := originator.getStateFromMemento memento0
    let line2 := "First saved State: " ++ originator.getState
    match careTaker.get 1 with
    | none => none
    | some memento1 =>
      let originator := originator.getStateFromMemento memento1
      let line3 := "Second saved State: " ++ originator.getState
      some [line1, line2, line3]

end MementoPattern

/-!
The customers of `src/null_object/null_object.cpp`.

A `std::shared_ptr<AbstractCustomer>` is embedded as an `Option`, `none` being
the null pointer.
-/

namespace NullObjectPattern

set_option linter.dupNamespace false

/-- The two classes deriving from `AbstractCustomer`, each with the member
`m_nmae` of the base class. -/
inductive AbstractCustomer where
  | RealCustomer (m_nmae : String)
  | NullCustomer (m_nmae : String)
  deriving DecidableEq, Repr

/-- The constructor `RealCustomer(std::string name)`. -/
def RealCustomer.RealCustomer (name : String) : AbstractCustomer :=
  AbstractCustomer.RealCustomer name

/-- The constructor `NullCustomer()`, which hands `""` to the base class. -/
def NullCustomer.NullCustomer : AbstractCustomer :=
  AbstractCustomer.NullCustomer ""

/-- The virtual method `bool isNil()`. -/
def AbstractCustomer.isNil : AbstractCustomer → Bool
  | AbstractCustomer.RealCustomer _ => false
  | AbstractCustomer.NullCustomer _ => true

/-- The virtual method `std::string getName()`. -/
def AbstractCustomer.getName : AbstractCustomer → String
  | AbstractCustomer.RealCustomer m_nmae => m_nmae
  | AbstractCustomer.NullCustomer _ => "Not Available in Customer Database"

namespace CustomerFactory

/-- `const std::vector<std::string> CustomerFactory::names`. -/
def names : List String := ["Rob", "Joe", "Julie"]

/-- The loop `for (auto nm : names)` of `getCustomer` over the names still to
be compared, with the `return` that follows it. -/
def getCustomerFrom (name : String) : List String → Option AbstractCustomer
  | [] => some NullCustomer.NullCustomer
  | nm :: rest =>
    if nm = name then some (RealCustomer.RealCustomer name)
    else getCustomerFrom name rest

/-- `static std::shared_ptr<AbstractCustomer> getCustomer(std::string name)`. -/
def getCustomer (name : String) : Option AbstractCustomer :=
  getCustomerFrom name names

end CustomerFactory

end NullObjectPattern

/-!
The leaders of `src/chain_of_responsibility/chain_of_responsibility.cpp`.

A `Leader*` is embedded as an `Option`, `none` being `nullptr`; a call through
`nullptr` has no defined behaviour and gives `none`.  A handler writes one
line, in which `std::cout << level` prints the value of the enumerator.
-/

namespace ChainOfResponsibilityPattern

/-- `enum RequestLevel { One = 1, Two, Three }`. -/
inductive RequestLevel where
  | One
  | Two
  | Three
  deriving DecidableEq, Repr

/-- The value of an enumerator. -/
def RequestLevel.value : RequestLevel → Int
  | RequestLevel.One => 1
  | RequestLevel.Two => 2
  | RequestLevel.Three => 3

/-- The three classes deriving from `Leader`, each with the member `m_leader`
of the base class. -/
inductive Leader where
  | Monitor (m_leader : Option Leader)
  | Captain (m_leader : Option Leader)
  | General (m_leader : Option Leader)

/-- The virtual method `void handleRequest(RequestLevel level)`: the lines
written. -/
def Leader.handleRequest : Leader → RequestLevel → Option (List String)
  | Leader.Monitor m_leader, level =>
    if level.value < RequestLevel.Two.value then
      some ["Mointor handle request : " ++ toString level.value]
    else
      match m_leader with
      | none => none
      | some leader => leader.handleRequest level
  | Leader.Captain m_leader, level =>
    if level.value < RequestLevel.Three.value then
      some ["Captain handle request : " ++ toString level.value]
    else
      match m_leader with
      | none => none
      | some leader => leader.handleRequest level
  | Leader.General _, level =>
    some ["General handle request : " ++ toString level.value]

/-- `Leader* general = new General(nullptr);` -/
def general : Leader := Leader.General none

/-- `Leader* captain = new Captain(general);` -/
def captain : Leader := Leader.Captain (some general)

/-- `Leader* monitor = new Monitor(captain);` -/
def monitor : Leader := Leader.Monitor (some captain)

end ChainOfResponsibilityPattern

/-!
The shape factory of `src/flyweight/flyweight.cpp`.

Circles are shared and changed through pointers, so they live in a heap: the
list of the circles `std::make_shared<Circle>` has built, oldest first, the
address of a circle being its position.  A `std::shared_ptr` is `none` for
`nullptr` or `some` address.  The `std::map` is embedded as the partial
function from keys to values it stands for; the code never iterates it.
-/

namespace FlyweightPattern

set_option linter.dupNamespace false

/-- A `std::shared_ptr` to a circle: `none` is `nullptr`. -/
abbrev SharedPtr := Option Nat

/-- The class `Circle`; `m_x`, `m_y` and `m_radius` are `none` until set. -/
structure Circle where
  m_color : String
  m_x : Option Int
  m_y : Option Int
  m_radius : Option Int
  deriving DecidableEq, Repr

/-- The constructor `Circle(std::string color)`. -/
def Circle.Circle (color : String) : FlyweightPattern.Circle :=
  { m_color := color, m_x := none, m_y := none, m_radius := none }

/-- The circles built so far. -/
abbrev Heap := List Circle

/-- A `std::map<std::string, std::shared_ptr<Shape>>`: `none` where the map
has no entry for the key. -/
abbrev CircleMap := String → Option SharedPtr

/-- Reading `map[key]`: `std::map::operator[]` first inserts a null pointer
when the map has no entry for the key, and gives the value of the entry. -/
def CircleMap.subscript (map : CircleMap) (key : String) : CircleMap × SharedPtr :=
  match map key with
  | some value => (map, value)
  | none => (fun k => if k = key then some none else map k, none)

/-- Writing `map[key] = value`. -/
def CircleMap.assign (map : CircleMap) (key : String) (value : SharedPtr) : CircleMap :=
  fun k => if k = key then some value else map k

/-- The class `ShapeFactory`; its implicit constructor leaves the map empty. -/
structure ShapeFactory where
  m_circleMap : CircleMap := fun _ => none

/-- What a call of `getCircle` leaves behind: the factory, the heap, the
pointer returned and the lines written. -/
structure Returned where
  this : ShapeFactory
  heap : Heap
  circle : SharedPtr
  out : List String

/-- `std::shared_ptr<Shape> ShapeFactory::getCircle(std::string color)`. -/
def ShapeFactory.getCircle (this : ShapeFactory) (heap : Heap) (color : String) :
    Returned :=
  let looked := CircleMap.subscript this.m_circleMap color
  let m_circleMap := looked.1
  let circle := looked.2
  if circle = none then
    let circle : SharedPtr := some heap.length
    let heap := heap ++ [Circle.Circle color]
    let m_circleMap := CircleMap.assign m_circleMap color circle
    { this := { m_circleMap := m_circleMap }, heap := heap, circle := circle,
      out := ["=================Creating circle of color : " ++ color] }
  else
    { this := { m_circleMap := m_circleMap }, heap := heap, circle := circle, out := [] }

/-- What a sequence of `getCircle` calls leaves behind: the factory, the heap,
the pointers returned, one per call, and the lines written. -/
structure ReturnedAll where
  this : ShapeFactory
  heap : Heap
  circles : List SharedPtr
  out : List String

/-- A sequence of `getCircle` calls, one per colour of the list. -/
def getCircles (this : ShapeFactory) (heap : Heap) : List String → ReturnedAll
  | [] => { this := this, heap := heap, circles := [], out := [] }
  | color :: rest =>
    let r := this.getCircle heap color
    let rs := getCircles r.this r.heap rest
    { this := rs.this, heap := rs.heap, circles := r.circle :: rs.circles,
      out := r.out ++ rs.out }

/-- The colours of a list that are requested for the first time, the colours
of `seen` having been requested before, in the order of their first
request. -/
def firstRequests (seen : List String) : List String → List String
  | [] => []
  | color :: rest =>
    if color ∈ seen then firstRequests seen rest
    else color :: firstRequests (seen ++ [color]) rest

/-- A factory fresh from its constructor, with an empty heap, after one
`getCircle` call per colour of the list. -/
def served (colors : List String) : ReturnedAll := getCircles {} [] colors

/-- The map that sends the `i`-th colour of a list to the address `i`. -/
def tableOf (created : List String) : CircleMap :=
  fun k => if k ∈ created then some (some (created.indexOf k)) else none

/-- The heap in which the `i`-th circle was built with the `i`-th colour of a
list. -/
def heapOf (created : List String) : Heap := created.map Circle.Circle

end FlyweightPattern

namespace StatePattern

/-- The function `main` of `state2.cpp`: the lines it writes, the count being
written before the first, the third and the fourth call. -/
def main : Option (List String) :=
  let tissueMachine := TissueMachine.TissueMachine 1
  let line1 := "纸巾数：" ++ toString tissueMachine.getCount
  match tissueMachine.insertQuarter with
  | none => none
  | some r1 =>
    match r1.1.turnCrank with
    | none => none
    | some r2 =>
      let line2 := "纸巾数：" ++ toString r2.1.getCount
      match r2.1.turnCrank with
      | none => none
      | some r3 =>
        let line3 := "纸巾数：" ++ toString r3.1.getCount
        match r3.1.insertQuarter with
        | none => none
        | some r4 =>
          match r4.1.turnCrank with
          | none => none
          | some r5 =>
            some ([line1] ++ r1.2 ++ r2.2 ++ [line2] ++ r3.2 ++ [line3] ++ r4.2 ++ r5.2)

end StatePattern

namespace StatePattern
open State Stimulus

/-! ## Single calls -/

theorem constructor_pos (n : Int) (h : 0 < n) :
    TissueMachine.TissueMachine n = ⟨some noQuarterState, n⟩ := by
  simp [TissueMachine.TissueMachine, TissueMachine.setState,
    TissueMachine.getNoQuarterState, h]

theorem constructor_nonpos (n : Int) (h : n ≤ 0) :
    TissueMachine.TissueMachine n = ⟨none, n⟩ := by
  simp [TissueMachine.TissueMachine, not_lt.mpr h]

theorem insertQuarter_noQuarter (c : Int) :
    TissueMachine.insertQuarter ⟨some noQuarterState, c⟩ =
      some (⟨some hasQuarterState, c⟩, ["已投币！"]) := rfl

theorem turnCrank_hasQuarter_pos (c : Int) (h : 0 < c) :
    TissueMachine.turnCrank ⟨some hasQuarterState, c⟩ =
      some (⟨some noQuarterState, c - 1⟩,
        ["请等待自动售货机出纸巾！", "你的纸巾，请拿好！"]) := by
  simp [TissueMachine.turnCrank, State.turnCrank, HasQuarterState.turnCrank,
    State.dispense, SoldState.dispense, TissueMachine.setState,
    TissueMachine.setCount, TissueMachine.getCount, TissueMachine.getSoldState,
    TissueMachine.getNoQuarterState, h]

theorem turnCrank_hasQuarter_nonpos (c : Int) (h : c ≤ 0) :
    TissueMachine.turnCrank ⟨some hasQuarterState, c⟩ =
      some (⟨some soldOutState, c⟩,
        ["请等待自动售货机出纸巾！", "已退回你的硬币！纸巾已卖光，等待进货！"]) := by
  simp [TissueMachine.turnCrank, State.turnCrank, HasQuarterState.turnCrank,
    State.dispense, SoldState.dispense, TissueMachine.setState,
    TissueMachine.getCount, TissueMachine.getSoldState,
    TissueMachine.getSoldOutState, not_lt.mpr h]

theorem turnCrank_sold_pos (c : Int) (h : 0 < c) :
    TissueMachine.turnCrank ⟨some soldState, c⟩ =
      some (⟨some noQuarterState, c - 1⟩,
        ["请等待自动售货机出纸巾！已响应你的操作！", "你的纸巾，请拿好！"]) := by
  simp [TissueMachine.turnCrank, State.turnCrank, SoldState.turnCrank,
    State.dispense, SoldState.dispense, TissueMachine.setState,
    TissueMachine.setCount, TissueMachine.getCount,
    TissueMachine.getNoQuarterState, h]

theorem turnCrank_sold_nonpos (c : Int) (h : c ≤ 0) :
    TissueMachine.turnCrank ⟨some soldState, c⟩ =
      some (⟨some soldOutState, c⟩,
        ["请等待自动售货机出纸巾！已响应你的操作！",
          "已退回你的硬币！纸巾已卖光，等待进货！"]) := by
  simp [TissueMachine.turnCrank, State.turnCrank, SoldState.turnCrank,
    State.dispense, SoldState.dispense, TissueMachine.setState,
    TissueMachine.getCount, TissueMachine.getSoldOutState, not_lt.mpr h]

theorem turnCrank_noQuarter (c : Int) :
    TissueMachine.turnCrank ⟨some noQuarterState, c⟩ =
      some (⟨some noQuarterState, c⟩, ["请投币"]) := rfl

theorem turnCrank_soldOut (c : Int) :
    TissueMachine.turnCrank ⟨some soldOutState, c⟩ =
      some (⟨some soldOutState, c⟩, ["机器无纸巾，请不要操作机器"]) := rfl

/-! ## Sequences of calls -/

theorem run_cons_some (m m1 : TissueMachine) (o1 : List String) (s : Stimulus)
    (rest : List Stimulus) (h : call m s = some (m1, o1)) :
    run m (s :: rest) = (run m1 rest).map (fun r2 => (r2.1, o1 ++ r2.2)) := by
  simp only [run, h]
  cases run m1 rest <;> rfl

theorem call_settled (m : TissueMachine) (s : Stimulus) (h : Settled m) :
    ∃ r, call m s = some r ∧ Settled r.1 := by
  obtain ⟨st, c⟩ := m
  obtain ⟨hst, hc, hso⟩ := h
  simp only at hst hc hso
  rcases hst with hst | hst | hst <;> subst hst
  · cases s
    · exact ⟨_, insertQuarter_noQuarter c, Or.inr (Or.inl rfl), hc, by simp⟩
    · exact ⟨(⟨some noQuarterState, c⟩, _), rfl, Or.inl rfl, hc, by simp⟩
    · exact ⟨_, turnCrank_noQuarter c, Or.inl rfl, hc, by simp⟩
  · cases s
    · exact ⟨(⟨some hasQuarterState, c⟩, _), rfl, Or.inr (Or.inl rfl), hc, by simp⟩
    · exact ⟨(⟨some noQuarterState, c⟩, _), rfl, Or.inl rfl, hc, by simp⟩
    · by_cases hpos : 0 < c
      · exact ⟨_, turnCrank_hasQuarter_pos c hpos, Or.inl rfl,
          Int.sub_nonneg_of_le hpos, by simp⟩
      · have hz : c = 0 := by omega
        exact ⟨_, turnCrank_hasQuarter_nonpos c (by omega), Or.inr (Or.inr rfl),
          hc, fun _ => hz⟩
  · cases s
    · exact ⟨(⟨some soldOutState, c⟩, _), rfl, Or.inr (Or.inr rfl), hc, hso⟩
    · exact ⟨(⟨some soldOutState, c⟩, _), rfl, Or.inr (Or.inr rfl), hc, hso⟩
    · exact ⟨_, turnCrank_soldOut c, Or.inr (Or.inr rfl), hc, hso⟩

theorem run_settled (ss : List Stimulus) :
    ∀ m : TissueMachine, Settled m → ∃ r, run m ss = some r ∧ Settled r.1 := by
  induction ss with
  | nil => intro m h; exact ⟨(m, []), rfl, h⟩
  | cons s rest ih =>
    intro m h
    obtain ⟨r1, h1, hs1⟩ := call_settled m s h
    obtain ⟨r2, h2, hs2⟩ := ih r1.1 hs1
    refine ⟨(r2.1, r1.2 ++ r2.2), ?_, hs2⟩
    rw [run_cons_some m r1.1 r1.2 s rest h1, h2]
    rfl

theorem constructor_settled (n : Int) (h : 1 ≤ n) :
    Settled (TissueMachine.TissueMachine n) := by
  rw [constructor_pos n (by omega)]
  exact ⟨Or.inl rfl, by simp; omega, by simp⟩

theorem call_count_nonneg (m : TissueMachine) (s : Stimulus) (r : Effect)
    (h : call m s = some r) (hc : 0 ≤ m.count) : 0 ≤ r.1.count := by
  obtain ⟨st, c⟩ := m
  simp only at hc
  cases st with
  | none => cases s <;> simp [call, TissueMachine.insertQuarter,
      TissueMachine.ejectQuarter, TissueMachine.turnCrank] at h
  | some st =>
    cases st <;> cases s <;>
      first
      | (cases h; exact hc)
      | (by_cases hpos : 0 < c
         · first
           | (rw [call, turnCrank_hasQuarter_pos c hpos] at h; cases h; simp; omega)
           | (rw [call, turnCrank_sold_pos c hpos] at h; cases h; simp; omega)
         · first
           | (rw [call, turnCrank_hasQuarter_nonpos c (by omega)] at h; cases h; exact hc)
           | (rw [call, turnCrank_sold_nonpos c (by omega)] at h; cases h; exact hc))

theorem run_count_nonneg (ss : List Stimulus) :
    ∀ (m : TissueMachine) (r : Effect), run m ss = some r → 0 ≤ m.count →
      0 ≤ r.1.count := by
  induction ss with
  | nil =>
    intro m r h hc
    cases h
    exact hc
  | cons s rest ih =>
    intro m r h hc
    cases h1 : call m s with
    | none => simp [run, h1] at h
    | some r1 =>
      have hc1 := call_count_nonneg m s r1 h1 hc
      rw [run_cons_some m r1.1 r1.2 s rest h1] at h
      cases h2 : run r1.1 rest with
      | none => simp [h2] at h
      | some r2 =>
        have hc2 := ih r1.1 r2 h2 hc1
        simp [h2] at h
        rw [← h]
        exact hc2

theorem run_empty_reaches_soldOut (m : TissueMachine) (h : Settled m)
    (hz : m.count = 0) :
    ∃ out, run m [insertQuarter, turnCrank] = some (⟨some soldOutState, 0⟩, out) := by
  obtain ⟨st, c⟩ := m
  obtain ⟨hst, _, _⟩ := h
  simp only at hst hz
  subst hz
  rcases hst with hst | hst | hst <;> subst hst <;> exact ⟨_, rfl⟩

theorem run_purchases (k : Nat) :
    ∀ c : Int, (k : Int) ≤ c →
      run ⟨some noQuarterState, c⟩ (purchases k) =
        some (⟨some noQuarterState, c - k⟩, purchaseLines k) := by
  induction k with
  | zero => intro c _; simp [purchases, purchaseLines, run]
  | succ k ih =>
    intro c hc
    have hpos : 0 < c := by omega
    have hk : (k : Int) ≤ c - 1 := by omega
    have e : c - ((k + 1 : Nat) : Int) = c - 1 - (k : Int) := by omega
    rw [purchases,
      run_cons_some ⟨some noQuarterState, c⟩ _ _ Stimulus.insertQuarter _
        (insertQuarter_noQuarter c),
      run_cons_some ⟨some hasQuarterState, c⟩ _ _ Stimulus.turnCrank _
        (turnCrank_hasQuarter_pos c hpos),
      ih (c - 1) hk, e]
    rfl

theorem run_constructor_purchases (n k : Nat) (hn : 1 ≤ n) (hk : k ≤ n) :
    run (TissueMachine.TissueMachine n) (purchases k) =
      some (⟨some noQuarterState, (n : Int) - k⟩, purchaseLines k) := by
  rw [constructor_pos n (by omega)]
  exact run_purchases k n (by omega)

theorem call_soldOut (s : Stimulus) :
    call ⟨some soldOutState, 0⟩ s = some (⟨some soldOutState, 0⟩, [soldOutLine s]) := by
  cases s <;> rfl

theorem run_soldOut (ss : List Stimulus) :
    run ⟨some soldOutState, 0⟩ ss =
      some (⟨some soldOutState, 0⟩, ss.map soldOutLine) := by
  induction ss with
  | nil => rfl
  | cons s rest ih =>
    rw [run_cons_some _ _ _ _ _ (call_soldOut s), ih]
    rfl

theorem run_ejectQuarter_noQuarter (c : Int) (k : Nat) :
    run ⟨some noQuarterState, c⟩ (List.replicate k Stimulus.ejectQuarter) =
      some (⟨some noQuarterState, c⟩, List.replicate k "自动售货机根本没有硬币！") := by
  induction k with
  | zero => rfl
  | succ k ih =>
    have h1 : call ⟨some noQuarterState, c⟩ Stimulus.ejectQuarter =
        some (⟨some noQuarterState, c⟩, ["自动售货机根本没有硬币！"]) := rfl
    rw [List.replicate_succ, run_cons_some _ _ _ _ _ h1, ih]
    rfl

/-! ## C1 -/

/-- C1 (the code at the failing input): the constructor called with 0 leaves
the `state` pointer unassigned, so the machine does not start in
`soldOutState`, and a first `insertQuarter()` goes through the unassigned
pointer.  With a positive number the machine does start in
`noQuarterState`. -/
theorem C1_constructor_zero_leaves_state_unassigned :
    TissueMachine.TissueMachine 0 = ⟨none, 0⟩ ∧
      (TissueMachine.TissueMachine 0).state ≠ some soldOutState ∧
      TissueMachine.insertQuarter (TissueMachine.TissueMachine 0) = none ∧
      ∀ n : Int, 0 < n →
        (TissueMachine.TissueMachine n).state = some noQuarterState := by
  refine ⟨by decide, by decide, by decide, ?_⟩
  intro n hn
  rw [constructor_pos n hn]

/-! ## C2 -/

/-- C2 (counterexample): with one tissue left, `turnCrank()` in
`hasQuarterState` hands the tissue out and leaves the machine in
`noQuarterState` with count 0, not in `soldOutState`. -/
theorem C2_last_tissue_leaves_noQuarterState :
    TissueMachine.turnCrank ⟨some hasQuarterState, 1⟩ =
        some (⟨some noQuarterState, 1 - 1⟩,
          ["请等待自动售货机出纸巾！", "你的纸巾，请拿好！"]) ∧
      ¬ ((1 : Int) - 1 = 0 →
        (TissueMachine.turnCrank ⟨some hasQuarterState, 1⟩).map
          (fun r => r.1.state) = some (some soldOutState)) := by
  decide

/-- C2 (amended): for every machine in `hasQuarterState` with count `n > 0`,
`turnCrank()` hands out one tissue: it writes the wait line and the tissue
line, the count afterwards is `n - 1` and the state is `noQuarterState`, also
when `n - 1 = 0`. -/
theorem C2_turnCrank_dispenses_one (n : Int) (hn : 0 < n) :
    TissueMachine.turnCrank ⟨some hasQuarterState, n⟩ =
      some (⟨some noQuarterState, n - 1⟩,
        ["请等待自动售货机出纸巾！", "你的纸巾，请拿好！"]) :=
  turnCrank_hasQuarter_pos n hn

/-- C2 (witness): the amended statement at `n = 2` and at `n = 1`. -/
theorem C2_turnCrank_dispenses_one_witness :
    ((0 : Int) < 2 ∧
      TissueMachine.turnCrank ⟨some hasQuarterState, 2⟩ =
        some (⟨some noQuarterState, 2 - 1⟩,
          ["请等待自动售货机出纸巾！", "你的纸巾，请拿好！"])) ∧
    ((0 : Int) < 1 ∧
      TissueMachine.turnCrank ⟨some hasQuarterState, 1⟩ =
        some (⟨some noQuarterState, 1 - 1⟩,
          ["请等待自动售货机出纸巾！", "你的纸巾，请拿好！"])) :=
  ⟨⟨by decide, C2_turnCrank_dispenses_one 2 (by decide)⟩,
    ⟨by decide, C2_turnCrank_dispenses_one 1 (by decide)⟩⟩

/-! ## C3 -/

/-- C3 (counterexample): a machine built with one tissue has count 0 after
`insertQuarter(); turnCrank();` and is then in `noQuarterState`, not in
`soldOutState`. -/
theorem C3_count_zero_in_noQuarterState :
    run (TissueMachine.TissueMachine 1) [insertQuarter, turnCrank] =
        some (⟨some noQuarterState, 0⟩,
          ["已投币！", "请等待自动售货机出纸巾！", "你的纸巾，请拿好！"]) ∧
      ¬ (∀ r, run (TissueMachine.TissueMachine 1) [insertQuarter, turnCrank] = some r →
        r.1.count = 0 → r.1.state = some soldOutState) := by
  refine ⟨by decide, fun h => ?_⟩
  have h1 := h (⟨some noQuarterState, 0⟩,
    ["已投币！", "请等待自动售货机出纸巾！", "你的纸巾，请拿好！"]) (by decide) rfl
  exact absurd h1 (by decide)

/-- C3 (amended): for a machine built with `n ≥ 1` tissues every sequence of
calls completes; afterwards `soldOutState` implies count 0, and whenever the
count is 0 the state is `noQuarterState`, `hasQuarterState` or `soldOutState`
(never `soldState`) and the calls `insertQuarter(); turnCrank();` end in
`soldOutState` with count 0. -/
theorem C3_count_zero_states (n : Int) (hn : 1 ≤ n) (ss : List Stimulus) :
    ∃ m out, run (TissueMachine.TissueMachine n) ss = some (m, out) ∧
      (m.state = some soldOutState → m.count = 0) ∧
      (m.count = 0 →
        (m.state = some noQuarterState ∨ m.state = some hasQuarterState ∨
          m.state = some soldOutState) ∧
        ∃ out', run m [insertQuarter, turnCrank] =
          some (⟨some soldOutState, 0⟩, out')) := by
  obtain ⟨r, hr, hs⟩ := run_settled ss _ (constructor_settled n hn)
  exact ⟨r.1, r.2, hr, hs.2.2, fun hz => ⟨hs.1, run_empty_reaches_soldOut r.1 hs hz⟩⟩

/-- C3 (witness): the amended statement for a machine built with one tissue
and the calls `insertQuarter(); turnCrank(); ejectQuarter();`. -/
theorem C3_count_zero_states_witness :
    (1 : Int) ≤ 1 ∧
      ∃ m out, run (TissueMachine.TissueMachine 1)
          [insertQuarter, turnCrank, ejectQuarter] = some (m, out) ∧
        (m.state = some soldOutState → m.count = 0) ∧
        (m.count = 0 →
          (m.state = some noQuarterState ∨ m.state = some hasQuarterState ∨
            m.state = some soldOutState) ∧
          ∃ out', run m [insertQuarter, turnCrank] =
            some (⟨some soldOutState, 0⟩, out')) :=
  ⟨by decide, C3_count_zero_states 1 (by decide) [insertQuarter, turnCrank, ejectQuarter]⟩

/-! ## C4 -/

/-- C4: for a machine built with `n ≥ 0` tissues and every sequence of calls,
the count after the calls is never negative; with `n ≥ 1` every sequence of
calls does complete. -/
theorem C4_count_never_negative (n : Int) (hn : 0 ≤ n) (ss : List Stimulus) :
    (∀ r, run (TissueMachine.TissueMachine n) ss = some r → 0 ≤ r.1.count) ∧
      (1 ≤ n → ∃ r, run (TissueMachine.TissueMachine n) ss = some r ∧
        0 ≤ r.1.count) := by
  have h0 : 0 ≤ (TissueMachine.TissueMachine n).count := by
    by_cases hpos : 0 < n
    · rw [constructor_pos n hpos]; exact hn
    · rw [constructor_nonpos n (by omega)]; exact hn
  refine ⟨fun r hr => run_count_nonneg ss _ r hr h0, fun h1 => ?_⟩
  obtain ⟨r, hr, hs⟩ := run_settled ss _ (constructor_settled n h1)
  exact ⟨r, hr, hs.2.1⟩

/-- C4 (witness): a machine built with two tissues and five calls. -/
theorem C4_count_never_negative_witness :
    (0 : Int) ≤ 2 ∧
      (∀ r, run (TissueMachine.TissueMachine 2)
          [insertQuarter, turnCrank, turnCrank, insertQuarter, turnCrank] = some r →
        0 ≤ r.1.count) ∧
      ((1 : Int) ≤ 2 → ∃ r, run (TissueMachine.TissueMachine 2)
          [insertQuarter, turnCrank, turnCrank, insertQuarter, turnCrank] = some r ∧
        0 ≤ r.1.count) :=
  ⟨by decide, C4_count_never_negative 2 (by decide)
    [insertQuarter, turnCrank, turnCrank, insertQuarter, turnCrank]⟩

/-! ## C5 -/

/-- C5: in each of the four states and for every count, `insertQuarter()` and
`ejectQuarter()` leave the count as it was, and `turnCrank()` either writes the
tissue line and lowers the count by exactly 1, or does not write it and leaves
the count as it was. -/
theorem C5_count_changes_only_on_dispense (s : State) (c : Int) :
    (∃ r, TissueMachine.insertQuarter ⟨some s, c⟩ = some r ∧ r.1.count = c) ∧
      (∃ r, TissueMachine.ejectQuarter ⟨some s, c⟩ = some r ∧ r.1.count = c) ∧
      (∃ r, TissueMachine.turnCrank ⟨some s, c⟩ = some r ∧
        (("你的纸巾，请拿好！" ∈ r.2 ∧ r.1.count = c - 1) ∨
          ("你的纸巾，请拿好！" ∉ r.2 ∧ r.1.count = c)) ∧
        ("你的纸巾，请拿好！" ∈ r.2 ↔ r.1.count = c - 1)) := by
  have hne : c ≠ c - 1 := by omega
  refine ⟨?_, ?_, ?_⟩
  · cases s <;> exact ⟨(⟨_, c⟩, _), rfl, rfl⟩
  · cases s <;> exact ⟨(⟨_, c⟩, _), rfl, rfl⟩
  · cases s
    · exact ⟨_, turnCrank_soldOut c, Or.inr ⟨by dsimp only; decide, rfl⟩,
        ⟨fun h => absurd h (by dsimp only; decide), fun h => absurd h hne⟩⟩
    · exact ⟨_, turnCrank_noQuarter c, Or.inr ⟨by dsimp only; decide, rfl⟩,
        ⟨fun h => absurd h (by dsimp only; decide), fun h => absurd h hne⟩⟩
    · by_cases hpos : 0 < c
      · exact ⟨_, turnCrank_hasQuarter_pos c hpos, Or.inl ⟨by dsimp only; decide, rfl⟩,
          ⟨fun _ => rfl, fun _ => by dsimp only; decide⟩⟩
      · exact ⟨_, turnCrank_hasQuarter_nonpos c (by omega), Or.inr ⟨by dsimp only; decide, rfl⟩,
          ⟨fun h => absurd h (by dsimp only; decide), fun h => absurd h hne⟩⟩
    · by_cases hpos : 0 < c
      · exact ⟨_, turnCrank_sold_pos c hpos, Or.inl ⟨by dsimp only; decide, rfl⟩,
          ⟨fun _ => rfl, fun _ => by dsimp only; decide⟩⟩
      · exact ⟨_, turnCrank_sold_nonpos c (by omega), Or.inr ⟨by dsimp only; decide, rfl⟩,
          ⟨fun h => absurd h (by dsimp only; decide), fun h => absurd h hne⟩⟩

/-! ## C6 -/

/-- C6: with count 0, in each of the four states, none of the three calls
writes the tissue line or changes the count; and `turnCrank()` in
`hasQuarterState` with count 0 writes the wait line and the refund / sold-out
line and ends in `soldOutState` with count 0. -/
theorem C6_no_dispense_when_empty :
    (∀ (s : State) (st : Stimulus), ∃ r, call ⟨some s, 0⟩ st = some r ∧
        "你的纸巾，请拿好！" ∉ r.2 ∧ r.1.count = 0) ∧
      TissueMachine.turnCrank ⟨some hasQuarterState, 0⟩ =
        some (⟨some soldOutState, 0⟩,
          ["请等待自动售货机出纸巾！", "已退回你的硬币！纸巾已卖光，等待进货！"]) := by
  refine ⟨fun s st => ?_, by decide⟩
  cases s <;> cases st <;> exact ⟨_, rfl, by decide, rfl⟩

/-! ## C7 -/

/-- C7 (counterexample): the scenario with one tissue.  After
`insertQuarter(); turnCrank();` the count is 0, and the `insertQuarter()` that
follows is accepted: it writes the coin-accepted line, not the sold-out refund
line, and leaves the machine in `hasQuarterState`, not in `soldOutState`. -/
theorem C7_insertQuarter_accepted_after_last_tissue :
    run (TissueMachine.TissueMachine 1) [insertQuarter, turnCrank] =
        some (⟨some noQuarterState, 0⟩,
          ["已投币！", "请等待自动售货机出纸巾！", "你的纸巾，请拿好！"]) ∧
      TissueMachine.insertQuarter ⟨some noQuarterState, 0⟩ =
        some (⟨some hasQuarterState, 0⟩, ["已投币！"]) ∧
      TissueMachine.insertQuarter ⟨some noQuarterState, 0⟩ ≠
        some (⟨some soldOutState, 0⟩, ["机器无纸巾，已退回硬币！"]) ∧
      run (TissueMachine.TissueMachine 1) [insertQuarter, turnCrank, insertQuarter] =
        some (⟨some hasQuarterState, 0⟩,
          ["已投币！", "请等待自动售货机出纸巾！", "你的纸巾，请拿好！", "已投币！"]) := by
  decide

/-- C7 (amended): a machine built with `n ≥ 1` tissues is in `noQuarterState`
with count 0 after its `n` purchases; the next `insertQuarter()` is accepted
and the `turnCrank()` after it writes the refund / sold-out line and enters
`soldOutState`.  Once a sequence of calls has left the machine in
`soldOutState`, it is in `soldOutState` with count 0 after any further calls,
and `insertQuarter()` there writes the sold-out refund line and changes
neither state nor count. -/
theorem C7_insertQuarter_refused_in_soldOutState (n : Nat) (hn : 1 ≤ n) :
    run (TissueMachine.TissueMachine n) (purchases n) =
        some (⟨some noQuarterState, 0⟩, purchaseLines n) ∧
      TissueMachine.insertQuarter ⟨some noQuarterState, 0⟩ =
        some (⟨some hasQuarterState, 0⟩, ["已投币！"]) ∧
      TissueMachine.turnCrank ⟨some hasQuarterState, 0⟩ =
        some (⟨some soldOutState, 0⟩,
          ["请等待自动售货机出纸巾！", "已退回你的硬币！纸巾已卖光，等待进货！"]) ∧
      ∀ (ss : List Stimulus) (m : TissueMachine) (out : List String),
        run (TissueMachine.TissueMachine n) ss = some (m, out) →
        m.state = some soldOutState →
        ∀ later : List Stimulus, ∃ out',
          run m later = some (⟨some soldOutState, 0⟩, out') ∧
          TissueMachine.insertQuarter ⟨some soldOutState, 0⟩ =
            some (⟨some soldOutState, 0⟩, ["机器无纸巾，已退回硬币！"]) := by
  refine ⟨?_, rfl, by decide, ?_⟩
  · have h := run_constructor_purchases n n hn (le_refl n)
    rwa [sub_self] at h
  · intro ss m out hrun hst later
    obtain ⟨r, hr, hs⟩ := run_settled ss _ (constructor_settled n (by omega))
    rw [hrun] at hr
    cases hr
    have hz : m.count = 0 := hs.2.2 hst
    obtain ⟨st, c⟩ := m
    simp only at hst hz
    subst hst hz
    exact ⟨_, run_soldOut later, rfl⟩

/-- C7 (witness): one tissue; `insertQuarter(); turnCrank(); insertQuarter();
turnCrank();` leaves the machine in `soldOutState`, and an `ejectQuarter()`
later it is still there and refuses the coin. -/
theorem C7_insertQuarter_refused_in_soldOutState_witness :
    1 ≤ 1 ∧
      run (TissueMachine.TissueMachine ((1 : Nat) : Int))
          [insertQuarter, turnCrank, insertQuarter, turnCrank] =
        some (⟨some soldOutState, 0⟩,
          ["已投币！", "请等待自动售货机出纸巾！", "你的纸巾，请拿好！", "已投币！",
            "请等待自动售货机出纸巾！", "已退回你的硬币！纸巾已卖光，等待进货！"]) ∧
      ∃ out', run ⟨some soldOutState, 0⟩ [ejectQuarter] =
          some (⟨some soldOutState, 0⟩, out') ∧
        TissueMachine.insertQuarter ⟨some soldOutState, 0⟩ =
          some (⟨some soldOutState, 0⟩, ["机器无纸巾，已退回硬币！"]) :=
  ⟨le_refl 1, by decide,
    (C7_insertQuarter_refused_in_soldOutState 1 (le_refl 1)).2.2.2
      [insertQuarter, turnCrank, insertQuarter, turnCrank] ⟨some soldOutState, 0⟩
      ["已投币！", "请等待自动售货机出纸巾！", "你的纸巾，请拿好！", "已投币！",
        "请等待自动售货机出纸巾！", "已退回你的硬币！纸巾已卖光，等待进货！"]
      (by decide) rfl [ejectQuarter]⟩

/-! ## C8 -/

/-- C8 (counterexample): the scenario with two tissues.  After the second
purchase the count is 0 and the machine is in `noQuarterState`; the final
pair is not (`soldOutState`, 0). -/
theorem C8_two_purchases_end_in_noQuarterState :
    run (TissueMachine.TissueMachine 2)
        [insertQuarter, turnCrank, insertQuarter, turnCrank] =
      some (⟨some noQuarterState, 0⟩,
        ["已投币！", "请等待自动售货机出纸巾！", "你的纸巾，请拿好！",
          "已投币！", "请等待自动售货机出纸巾！", "你的纸巾，请拿好！"]) ∧
      (run (TissueMachine.TissueMachine 2)
        [insertQuarter, turnCrank, insertQuarter, turnCrank]).map (fun r => r.1) ≠
      some ⟨some soldOutState, 0⟩ := by
  decide

/-- C8 (amended): for `n ≥ 1` and every `k ≤ n`, a machine built with `n`
tissues that receives `k` times `insertQuarter(); turnCrank();` writes the
three lines of a purchase (coin accepted, wait, tissue) once per repetition
and is then in `noQuarterState` with count `n - k`; after the `n`-th
repetition the pair is (`noQuarterState`, 0). -/
theorem C8_purchases_dispense_one_each (n : Nat) (hn : 1 ≤ n) (k : Nat) (hk : k ≤ n) :
    run (TissueMachine.TissueMachine n) (purchases k) =
        some (⟨some noQuarterState, (n : Int) - k⟩, purchaseLines k) ∧
      run (TissueMachine.TissueMachine n) (purchases n) =
        some (⟨some noQuarterState, 0⟩, purchaseLines n) := by
  refine ⟨run_constructor_purchases n k hn hk, ?_⟩
  have h := run_constructor_purchases n n hn (le_refl n)
  rwa [sub_self] at h

/-- C8 (witness): three tissues, after the second purchase. -/
theorem C8_purchases_dispense_one_each_witness :
    1 ≤ 3 ∧ 2 ≤ 3 ∧
      run (TissueMachine.TissueMachine ((3 : Nat) : Int)) (purchases 2) =
        some (⟨some noQuarterState, ((3 : Nat) : Int) - (2 : Nat)⟩, purchaseLines 2) ∧
      run (TissueMachine.TissueMachine ((3 : Nat) : Int)) (purchases 3) =
        some (⟨some noQuarterState, 0⟩, purchaseLines 3) :=
  ⟨by decide, by decide, C8_purchases_dispense_one_each 3 (by decide) 2 (by decide)⟩

/-! ## C9 -/

/-- C9: `soldOutState` with count 0 is absorbing.  Each of the three calls
writes its one line and leaves state and count as they were, and so after
every sequence of calls the machine is in `soldOutState` with count 0, having
written one such line per call. -/
theorem C9_soldOutState_absorbing :
    TissueMachine.insertQuarter ⟨some soldOutState, 0⟩ =
        some (⟨some soldOutState, 0⟩, ["机器无纸巾，已退回硬币！"]) ∧
      TissueMachine.ejectQuarter ⟨some soldOutState, 0⟩ =
        some (⟨some soldOutState, 0⟩, ["自动售货机根本没有硬币！"]) ∧
      TissueMachine.turnCrank ⟨some soldOutState, 0⟩ =
        some (⟨some soldOutState, 0⟩, ["机器无纸巾，请不要操作机器"]) ∧
      ∀ ss : List Stimulus,
        run ⟨some soldOutState, 0⟩ ss =
          some (⟨some soldOutState, 0⟩, ss.map soldOutLine) :=
  ⟨rfl, rfl, rfl, run_soldOut⟩

/-! ## C10 -/

/-- C10: in `noQuarterState`, for every count, `insertQuarter()` writes the
coin-accepted line and moves to `hasQuarterState`; `ejectQuarter()` and
`turnCrank()` each write one line and stay in `noQuarterState`; the count is
the same after each of the three. -/
theorem C10_noQuarterState_row (c : Int) :
    TissueMachine.insertQuarter ⟨some noQuarterState, c⟩ =
        some (⟨some hasQuarterState, c⟩, ["已投币！"]) ∧
      TissueMachine.ejectQuarter ⟨some noQuarterState, c⟩ =
        some (⟨some noQuarterState, c⟩, ["自动售货机根本没有硬币！"]) ∧
      TissueMachine.turnCrank ⟨some noQuarterState, c⟩ =
        some (⟨some noQuarterState, c⟩, ["请投币"]) :=
  ⟨rfl, rfl, rfl⟩

/-! ## C11 -/

/-- C11: in `hasQuarterState`, for every count, `insertQuarter()` writes the
duplicate-coin line and stays in `hasQuarterState`, and `ejectQuarter()` writes
the coin-returned line and moves to `noQuarterState`; the count is the same
after each. -/
theorem C11_hasQuarterState_insert_eject (c : Int) :
    TissueMachine.insertQuarter ⟨some hasQuarterState, c⟩ =
        some (⟨some hasQuarterState, c⟩, ["已投币！请不要重复投币！已退回重复投币！"]) ∧
      TissueMachine.ejectQuarter ⟨some hasQuarterState, c⟩ =
        some (⟨some noQuarterState, c⟩, ["已取币！"]) :=
  ⟨rfl, rfl⟩

/-! ## C12 -/

/-- C12 (the code at the failing input): in `soldState`, for every count,
`ejectQuarter()` writes the line that tells the customer to wait for the tissue
and that the coin cannot be taken back, and yet installs `noQuarterState`: the
machine does not stay in `soldState`.  The count is unchanged. -/
theorem C12_soldState_ejectQuarter_leaves_soldState (c : Int) :
    TissueMachine.ejectQuarter ⟨some soldState, c⟩ =
        some (⟨some noQuarterState, c⟩,
          ["请等待自动售货机出纸巾！无法取回已消费的硬币！"]) ∧
      TissueMachine.ejectQuarter ⟨some soldState, c⟩ ≠
        some (⟨some soldState, c⟩,
          ["请等待自动售货机出纸巾！无法取回已消费的硬币！"]) := by
  refine ⟨rfl, fun h => ?_⟩
  have h1 : TissueMachine.ejectQuarter ⟨some soldState, c⟩ =
      some (⟨some noQuarterState, c⟩,
        ["请等待自动售货机出纸巾！无法取回已消费的硬币！"]) := rfl
  rw [h1] at h
  simp at h

/-! ## C13 -/

/-- C13 (counterexample): in `soldState` with one tissue, `turnCrank()` of the
machine writes two lines, the second being the tissue line, and ends in
`noQuarterState` with count 0: it neither writes one line only, nor stays in
`soldState`, nor keeps the count. -/
theorem C13_soldState_turnCrank_dispenses :
    TissueMachine.turnCrank ⟨some soldState, 1⟩ =
        some (⟨some noQuarterState, 0⟩,
          ["请等待自动售货机出纸巾！已响应你的操作！", "你的纸巾，请拿好！"]) ∧
      TissueMachine.turnCrank ⟨some soldState, 1⟩ ≠
        some (⟨some soldState, 1⟩, ["请等待自动售货机出纸巾！已响应你的操作！"]) := by
  decide

/-- C13 (amended): in `soldState` the method `SoldState::turnCrank` alone
writes its one line and changes nothing, but `turnCrank()` of the machine then
runs `dispense()`: with a count above 0 it writes the tissue line and ends in
`noQuarterState` with one tissue less, otherwise it writes the refund /
sold-out line and ends in `soldOutState` with the count unchanged. -/
theorem C13_soldState_turnCrank_then_dispense (c : Int) :
    SoldState.turnCrank ⟨some soldState, c⟩ =
        (⟨some soldState, c⟩, ["请等待自动售货机出纸巾！已响应你的操作！"]) ∧
      TissueMachine.turnCrank ⟨some soldState, c⟩ =
        some (if 0 < c then
            (⟨some noQuarterState, c - 1⟩,
              ["请等待自动售货机出纸巾！已响应你的操作！", "你的纸巾，请拿好！"])
          else
            (⟨some soldOutState, c⟩,
              ["请等待自动售货机出纸巾！已响应你的操作！",
                "已退回你的硬币！纸巾已卖光，等待进货！"])) := by
  refine ⟨rfl, ?_⟩
  by_cases h : 0 < c
  · rw [if_pos h, turnCrank_sold_pos c h]
  · rw [if_neg h, turnCrank_sold_nonpos c (by omega)]

/-! ## C14 -/

/-- C14 (counterexample): `turnCrank()` in `hasQuarterState` with one tissue
writes two lines, not one. -/
theorem C14_turnCrank_writes_two_lines :
    TissueMachine.turnCrank ⟨some hasQuarterState, 1⟩ =
        some (⟨some noQuarterState, 0⟩,
          ["请等待自动售货机出纸巾！", "你的纸巾，请拿好！"]) ∧
      ¬ (∀ r, TissueMachine.turnCrank ⟨some hasQuarterState, 1⟩ = some r →
        r.2.length = 1) := by
  refine ⟨by decide, fun h => ?_⟩
  have h1 := h (⟨some noQuarterState, 0⟩,
    ["请等待自动售货机出纸巾！", "你的纸巾，请拿好！"]) (by decide)
  exact absurd h1 (by decide)

/-- C14 (amended): in each of the four states and for every count,
`insertQuarter()` and `ejectQuarter()` write exactly one line; `turnCrank()`
writes exactly one line in `noQuarterState` and `soldOutState`, and exactly
two lines (that of `turnCrank`, then that of `dispense`) in `hasQuarterState`
and `soldState`. -/
theorem C14_lines_per_call (s : State) (c : Int) :
    (∃ r, TissueMachine.insertQuarter ⟨some s, c⟩ = some r ∧ r.2.length = 1) ∧
      (∃ r, TissueMachine.ejectQuarter ⟨some s, c⟩ = some r ∧ r.2.length = 1) ∧
      (∃ r, TissueMachine.turnCrank ⟨some s, c⟩ = some r ∧
        r.2.length = if s = hasQuarterState ∨ s = soldState then 2 else 1) := by
  refine ⟨?_, ?_, ?_⟩
  · cases s <;> exact ⟨(⟨_, c⟩, [_]), rfl, rfl⟩
  · cases s <;> exact ⟨(⟨_, c⟩, [_]), rfl, rfl⟩
  · cases s
    · exact ⟨_, turnCrank_soldOut c, by simp⟩
    · exact ⟨_, turnCrank_noQuarter c, by simp⟩
    · by_cases hpos : 0 < c
      · exact ⟨_, turnCrank_hasQuarter_pos c hpos, by simp⟩
      · exact ⟨_, turnCrank_hasQuarter_nonpos c (by omega), by simp⟩
    · by_cases hpos : 0 < c
      · exact ⟨_, turnCrank_sold_pos c hpos, by simp⟩
      · exact ⟨_, turnCrank_sold_nonpos c (by omega), by simp⟩

/-! ## C15 -/

/-- C15 (counterexample): the constructor called with -1 does not fail; it
hands back a machine whose count is -1. -/
theorem C15_constructor_accepts_minus_one :
    (TissueMachine.TissueMachine (-1)).count = -1 ∧
      (TissueMachine.TissueMachine (-1)).getCount = -1 := by
  decide

/-- C15 (amended): the constructor has no failing path; called with `n < 0`
it hands back a machine whose count is `n`, hence negative. -/
theorem C15_constructor_accepts_negative (n : Int) (hn : n < 0) :
    ∃ m : TissueMachine, TissueMachine.TissueMachine n = m ∧ m.count = n ∧
      m.getCount < 0 := by
  refine ⟨⟨none, n⟩, constructor_nonpos n (by omega), rfl, hn⟩

/-- C15 (witness): the constructor called with -3. -/
theorem C15_constructor_accepts_negative_witness :
    (-3 : Int) < 0 ∧
      ∃ m : TissueMachine, TissueMachine.TissueMachine (-3) = m ∧ m.count = -3 ∧
        m.getCount < 0 :=
  ⟨by decide, C15_constructor_accepts_negative (-3) (by decide)⟩

/-! ## C16 -/

/-- C16: in `noQuarterState`, for every count, two `ejectQuarter()` calls in a
row write the same nothing-to-eject line twice and leave state and count as
they were; and for every `k`, `k` such calls in a row write `k` copies of that
line and leave state and count as they were. -/
theorem C16_ejectQuarter_idempotent (c : Int) :
    run ⟨some noQuarterState, c⟩ [ejectQuarter, ejectQuarter] =
        some (⟨some noQuarterState, c⟩,
          ["自动售货机根本没有硬币！", "自动售货机根本没有硬币！"]) ∧
      ∀ k : Nat,
        run ⟨some noQuarterState, c⟩ (List.replicate k ejectQuarter) =
          some (⟨some noQuarterState, c⟩,
            List.replicate k "自动售货机根本没有硬币！") :=
  ⟨run_ejectQuarter_noQuarter c 2, run_ejectQuarter_noQuarter c⟩

end StatePattern

namespace FilterPattern

/-! ## The loops as filters -/

theorem foldl_push_back_eq (keep : Person → Prop) [DecidablePred keep]
    (persons : List Person) :
    ∀ m_list : List Person,
      persons.foldl (fun m_list person => if keep person then m_list ++ [person] else m_list)
        m_list = m_list ++ persons.filter (fun person => decide (keep person)) := by
  induction persons with
  | nil => intro m_list; simp
  | cons person rest ih =>
    intro m_list
    rw [List.foldl_cons, ih]
    by_cases h : keep person <;> simp [h]

theorem criteriaMale_eq_filter (persons : List Person) :
    CriteriaMale.meetCriteria persons =
      persons.filter (fun person => decide (person.getGender = "Male")) := by
  rw [CriteriaMale.meetCriteria, foldl_push_back_eq (fun person => person.getGender = "Male")]
  rfl

theorem criteriaFemale_eq_filter (persons : List Person) :
    CriteriaFemale.meetCriteria persons =
      persons.filter (fun person => decide (person.getGender = "Female")) := by
  rw [CriteriaFemale.meetCriteria,
    foldl_push_back_eq (fun person => person.getGender = "Female")]
  rfl

theorem criteriaSingle_eq_filter (persons : List Person) :
    CriteriaSingle.meetCriteria persons =
      persons.filter (fun person => decide (person.getMaritalStatus = "Single")) := by
  rw [CriteriaSingle.meetCriteria,
    foldl_push_back_eq (fun person => person.getMaritalStatus = "Single")]
  rfl

theorem eq_of_getName_eq (persons : List Person)
    (hnames : (persons.map Person.getName).Nodup) (x y : Person)
    (hx : x ∈ persons) (hy : y ∈ persons) (h : x.getName = y.getName) : x = y :=
  List.inj_on_of_nodup_map hnames hx hy h

theorem find_isNone_iff_not_mem (persons : List Person)
    (hnames : (persons.map Person.getName).Nodup) (acc : List Person)
    (hacc : ∀ y ∈ acc, y ∈ persons) (x : Person) (hx : x ∈ persons) :
    (acc.find? (fun p => decide (x.getName = p.getName))).isNone = true ↔ x ∉ acc := by
  rw [Option.isNone_iff_eq_none, List.find?_eq_none]
  constructor
  · intro h hmem
    have := h x hmem
    simp at this
  · intro h y hy
    simp only [decide_eq_true_eq]
    intro hname
    exact h (eq_of_getName_eq persons hnames x y hx (hacc y hy) hname ▸ hy)

theorem foldl_merge_eq (persons : List Person)
    (hnames : (persons.map Person.getName).Nodup) (single : Person → Bool)
    (other : List Person) :
    ∀ acc : List Person, other.Nodup → (∀ x ∈ other, x ∈ persons) →
      (∀ y ∈ acc, y ∈ persons) → (∀ x ∈ other, x ∈ acc ↔ single x = true) →
      other.foldl
        (fun firstCriteriaPersons person =>
          if (firstCriteriaPersons.find?
              (fun p => decide (person.getName = p.getName))).isNone then
            firstCriteriaPersons ++ [person]
          else firstCriteriaPersons)
        acc = acc ++ other.filter (fun x => !single x) := by
  induction other with
  | nil => intro acc _ _ _ _; simp
  | cons x rest ih =>
    intro acc hnd hother hacc hiff
    have hx : x ∈ persons := hother x (List.mem_cons_self x rest)
    have hnd' : rest.Nodup := (List.nodup_cons.mp hnd).2
    have hxrest : x ∉ rest := (List.nodup_cons.mp hnd).1
    have hother' : ∀ z ∈ rest, z ∈ persons := fun z hz => hother z (List.mem_cons_of_mem x hz)
    rw [List.foldl_cons]
    by_cases hs : single x = true
    · have hmem : x ∈ acc := (hiff x (List.mem_cons_self x rest)).mpr hs
      have hfind : ¬ ((acc.find? (fun p => decide (x.getName = p.getName))).isNone = true) :=
        fun h => (find_isNone_iff_not_mem persons hnames acc hacc x hx).mp h hmem
      rw [if_neg hfind, ih acc hnd' hother' hacc
        (fun z hz => hiff z (List.mem_cons_of_mem x hz))]
      simp [hs]
    · have hmem : x ∉ acc := fun h => hs ((hiff x (List.mem_cons_self x rest)).mp h)
      have hfind : (acc.find? (fun p => decide (x.getName = p.getName))).isNone = true :=
        (find_isNone_iff_not_mem persons hnames acc hacc x hx).mpr hmem
      rw [if_pos hfind, ih (acc ++ [x]) hnd' hother']
      · simp [hs]
      · intro y hy
        rcases List.mem_append.mp hy with h | h
        · exact hacc y h
        · rw [List.mem_singleton.mp h]; exact hx
      · intro z hz
        have hne : z ≠ x := fun h => hxrest (h ▸ hz)
        rw [List.mem_append, List.mem_singleton]
        constructor
        · rintro (h | h)
          · exact (hiff z (List.mem_cons_of_mem x hz)).mp h
          · exact absurd h hne
        · intro h
          exact Or.inl ((hiff z (List.mem_cons_of_mem x hz)).mpr h)

theorem singleOrFemale_eq (persons : List Person)
    (hnames : (persons.map Person.getName).Nodup) :
    singleOrFemale persons =
      persons.filter (fun person => decide (person.getMaritalStatus = "Single")) ++
        (persons.filter (fun person => decide (person.getGender = "Female"))).filter
          (fun person => !decide (person.getMaritalStatus = "Single")) := by
  have hnd : persons.Nodup := List.Nodup.of_map _ hnames
  rw [singleOrFemale, OrCriteria.meetCriteria]
  simp only [criteriaSingle_eq_filter, criteriaFemale_eq_filter]
  apply foldl_merge_eq persons hnames
    (fun person => decide (person.getMaritalStatus = "Single"))
  · exact hnd.filter _
  · intro x hx; exact (List.mem_filter.mp hx).1
  · intro y hy; exact (List.mem_filter.mp hy).1
  · intro x hx
    rw [List.mem_filter]
    exact ⟨fun h => h.2, fun h => ⟨(List.mem_filter.mp hx).1, h⟩⟩

/-! ## C17 -/

/-- C17 (counterexample): of two persons named Ann, a single man and a married
woman, `singleOrFemale` returns the man only: the woman is in the input and is
`"Female"`, and she is not returned. -/
theorem C17_same_name_female_left_out :
    singleOrFemale [⟨"Ann", "Male", "Single"⟩, ⟨"Ann", "Female", "Married"⟩] =
        [⟨"Ann", "Male", "Single"⟩] ∧
      (⟨"Ann", "Female", "Married"⟩ : Person) ∈
        [(⟨"Ann", "Male", "Single"⟩ : Person), ⟨"Ann", "Female", "Married"⟩] ∧
      (⟨"Ann", "Female", "Married"⟩ : Person).getGender = "Female" ∧
      (⟨"Ann", "Female", "Married"⟩ : Person) ∉
        singleOrFemale [⟨"Ann", "Male", "Single"⟩, ⟨"Ann", "Female", "Married"⟩] := by
  decide

/-- C17 (amended): for every list of persons whose names are pairwise
distinct, `singleOrFemale` returns no person twice, returns exactly the
persons of the input that are `"Single"` or `"Female"`, and returns them as
the single ones in input order followed by the female ones that are not
single, in input order. -/
theorem C17_singleOrFemale_distinct_names (persons : List Person)
    (hnames : (persons.map Person.getName).Nodup) :
    (singleOrFemale persons).Nodup ∧
      (∀ p : Person, p ∈ singleOrFemale persons ↔
        p ∈ persons ∧ (p.getMaritalStatus = "Single" ∨ p.getGender = "Female")) ∧
      singleOrFemale persons =
        persons.filter (fun person => decide (person.getMaritalStatus = "Single")) ++
          persons.filter (fun person =>
            decide (person.getGender = "Female" ∧ person.getMaritalStatus ≠ "Single")) := by
  have hnd : persons.Nodup := List.Nodup.of_map _ hnames
  have heq := singleOrFemale_eq persons hnames
  rw [List.filter_filter] at heq
  have heq' : singleOrFemale persons =
      persons.filter (fun person => decide (person.getMaritalStatus = "Single")) ++
        persons.filter (fun person =>
          decide (person.getGender = "Female" ∧ person.getMaritalStatus ≠ "Single")) := by
    rw [heq]
    congr 1
    apply List.filter_congr
    intro x _
    by_cases h1 : x.getGender = "Female" <;> by_cases h2 : x.getMaritalStatus = "Single" <;>
      simp [h1, h2]
  refine ⟨?_, ?_, heq'⟩
  · rw [heq']
    refine List.Nodup.append (hnd.filter _) (hnd.filter _) ?_
    intro x hx1 hx2
    have h1 := (List.mem_filter.mp hx1).2
    have h2 := (List.mem_filter.mp hx2).2
    simp only [decide_eq_true_eq] at h1 h2
    exact h2.2 h1
  · intro p
    rw [heq', List.mem_append, List.mem_filter, List.mem_filter]
    simp only [decide_eq_true_eq]
    constructor
    · rintro (⟨hp, hs⟩ | ⟨hp, hf, _⟩)
      · exact ⟨hp, Or.inl hs⟩
      · exact ⟨hp, Or.inr hf⟩
    · rintro ⟨hp, hs | hf⟩
      · exact Or.inl ⟨hp, hs⟩
      · by_cases hs : p.getMaritalStatus = "Single"
        · exact Or.inl ⟨hp, hs⟩
        · exact Or.inr ⟨hp, hf, hs⟩

/-- C17 (witness): the six persons of `main`. -/
theorem C17_singleOrFemale_distinct_names_witness :
    (([⟨"Robert", "Male", "Single"⟩, ⟨"John", "Male", "Married"⟩,
        ⟨"Laura", "Female", "Married"⟩, ⟨"Diana", "Female", "Single"⟩,
        ⟨"Mike", "Male", "Single"⟩, ⟨"Bobby", "Male", "Single"⟩] : List Person).map
          Person.getName).Nodup ∧
      singleOrFemale [⟨"Robert", "Male", "Single"⟩, ⟨"John", "Male", "Married"⟩,
          ⟨"Laura", "Female", "Married"⟩, ⟨"Diana", "Female", "Single"⟩,
          ⟨"Mike", "Male", "Single"⟩, ⟨"Bobby", "Male", "Single"⟩] =
        [⟨"Robert", "Male", "Single"⟩, ⟨"Diana", "Female", "Single"⟩,
          ⟨"Mike", "Male", "Single"⟩, ⟨"Bobby", "Male", "Single"⟩,
          ⟨"Laura", "Female", "Married"⟩] ∧
      (singleOrFemale [⟨"Robert", "Male", "Single"⟩, ⟨"John", "Male", "Married"⟩,
          ⟨"Laura", "Female", "Married"⟩, ⟨"Diana", "Female", "Single"⟩,
          ⟨"Mike", "Male", "Single"⟩, ⟨"Bobby", "Male", "Single"⟩]).Nodup :=
  ⟨by decide, by decide,
    (C17_singleOrFemale_distinct_names
      [⟨"Robert", "Male", "Single"⟩, ⟨"John", "Male", "Married"⟩,
        ⟨"Laura", "Female", "Married"⟩, ⟨"Diana", "Female", "Single"⟩,
        ⟨"Mike", "Male", "Single"⟩, ⟨"Bobby", "Male", "Single"⟩] (by decide)).1⟩

/-! ## C18 -/

/-- C18: for every list of persons, `singleMale` returns exactly the persons
whose marital status is `"Single"` and whose gender is `"Male"`, in input
order, and `AndCriteria(male, single)` returns the same list. -/
theorem C18_singleMale_is_filter (persons : List Person) :
    singleMale persons =
        persons.filter (fun person =>
          decide (person.getMaritalStatus = "Single" ∧ person.getGender = "Male")) ∧
      AndCriteria.meetCriteria CriteriaMale.meetCriteria CriteriaSingle.meetCriteria
          persons = singleMale persons := by
  have h1 : singleMale persons =
      persons.filter (fun person =>
        decide (person.getMaritalStatus = "Single" ∧ person.getGender = "Male")) := by
    rw [singleMale, AndCriteria.meetCriteria]
    simp only [criteriaSingle_eq_filter, criteriaMale_eq_filter, List.filter_filter]
    apply List.filter_congr
    intro x _
    by_cases h1 : x.getGender = "Male" <;> by_cases h2 : x.getMaritalStatus = "Single" <;>
      simp [h1, h2]
  refine ⟨h1, ?_⟩
  rw [h1, AndCriteria.meetCriteria]
  simp only [criteriaSingle_eq_filter, criteriaMale_eq_filter, List.filter_filter]
  apply List.filter_congr
  intro x _
  by_cases h1 : x.getGender = "Male" <;> by_cases h2 : x.getMaritalStatus = "Single" <;>
    simp [h1, h2]

end FilterPattern

namespace IteratorPattern

/-! ## The array and the loop -/

theorem fill_getElem? (d : Nat) :
    ∀ (nSize i : Int) (m_pData : List (Option Int)), (nSize - i).toNat = d → 0 ≤ i →
      m_pData.length = nSize.toNat → ∀ j : Nat,
        (ConcreateAggregate.fill nSize i m_pData)[j]? =
          if i ≤ (j : Int) ∧ (j : Int) < nSize then some (some (j : Int))
          else m_pData[j]? := by
  induction d with
  | zero =>
    intro nSize i m_pData hd _ _ j
    have hge : ¬ i < nSize := by omega
    rw [ConcreateAggregate.fill, if_neg hge, if_neg (by omega)]
  | succ d ih =>
    intro nSize i m_pData hd hi hlen j
    have hlt : i < nSize := by omega
    rw [ConcreateAggregate.fill, if_pos hlt,
      ih nSize (i + 1) (m_pData.set i.toNat (some i)) (by omega) (by omega)
        (by rw [List.length_set]; exact hlen) j]
    by_cases hj : i.toNat = j
    · have hij : i = (j : Int) := by omega
      have hin : i.toNat < m_pData.length := by omega
      rw [if_neg (by omega), if_pos (by omega), List.getElem?_set, if_pos hj, if_pos hin, hij]
    · rw [List.getElem?_set, if_neg hj]
      by_cases hc : i + 1 ≤ (j : Int) ∧ (j : Int) < nSize
      · rw [if_pos hc, if_pos (by omega)]
      · rw [if_neg hc, if_neg (by omega)]

theorem constructor_eq (n : Nat) :
    ConcreateAggregate.ConcreateAggregate (n : Int) =
      some { m_nSize := n,
             m_pData := ConcreateAggregate.fill n 0 (List.replicate n none) } := by
  rw [ConcreateAggregate.ConcreateAggregate, if_neg (by omega), Int.toNat_ofNat]

theorem getItem_fill (n : Nat) (i : Int) (h0 : 0 ≤ i) (hn : i < n) :
    ConcreateAggregate.getItem
        { m_nSize := n, m_pData := ConcreateAggregate.fill n 0 (List.replicate n none) } i =
      some i := by
  have hcell := fill_getElem? ((n : Int) - 0).toNat n 0 (List.replicate n none) rfl
    (le_refl 0) (by simp) i.toNat
  have hi : ((i.toNat : Nat) : Int) = i := Int.toNat_of_nonneg h0
  rw [if_pos (by omega), hi] at hcell
  simp only [ConcreateAggregate.getItem]
  rw [if_pos hn, if_pos h0, hcell]
  rfl

theorem loop_eq (pAggregate : ConcreateAggregate) (n : Nat)
    (hsize : pAggregate.m_nSize = n)
    (hitem : ∀ i : Int, 0 ≤ i → i < n → pAggregate.getItem i = some i) (fuel : Nat) :
    ∀ i : Nat, i ≤ n →
      loop fuel { m_pConcreateAggregate := pAggregate, m_nIndex := i } =
        if n - i ≤ fuel then some ((List.range' i (n - i)).map (fun (k : Nat) => (k : Int)))
        else none := by
  induction fuel with
  | zero =>
    intro i hi
    by_cases hdone : i = n
    · subst hdone
      simp [loop, ConcreateIterater.isDone, ConcreateAggregate.getSize, hsize]
    · have hne : ¬ ((i : Int) = (n : Int)) := by omega
      have hpos : ¬ (n - i ≤ 0) := by omega
      simp [loop, ConcreateIterater.isDone, ConcreateAggregate.getSize, hsize, hne, hpos]
  | succ fuel ih =>
    intro i hi
    by_cases hdone : i = n
    · subst hdone
      simp [loop, ConcreateIterater.isDone, ConcreateAggregate.getSize, hsize]
    · have hne : ¬ ((i : Int) = (n : Int)) := by omega
      have hlt : (i : Int) < (n : Int) := by omega
      have hnext : ConcreateIterater.next
          { m_pConcreateAggregate := pAggregate, m_nIndex := i } =
          { m_pConcreateAggregate := pAggregate, m_nIndex := ((i + 1 : Nat) : Int) } := by
        simp [ConcreateIterater.next, ConcreateAggregate.getSize, hsize, hlt]
      have hcur : ConcreateIterater.currentItem
          { m_pConcreateAggregate := pAggregate, m_nIndex := i } = some (i : Int) :=
        hitem i (by omega) hlt
      have hsplit : n - i = (n - (i + 1)) + 1 := by omega
      rw [loop]
      simp only [ConcreateIterater.isDone, ConcreateAggregate.getSize, hsize, hne,
        decide_False, Bool.false_eq_true, if_false]
      rw [hcur]
      simp only []
      rw [hnext, ih (i + 1) (by omega)]
      by_cases hf : n - (i + 1) ≤ fuel
      · rw [if_pos hf, if_pos (by omega)]
        conv_rhs => rw [hsplit, List.range'_succ]
        rfl
      · rw [if_neg hf, if_neg (by omega)]
        rfl

theorem main_eq (n fuel : Nat) :
    main fuel (n : Int) = if n ≤ fuel then some (upTo n) else none := by
  have h := loop_eq
    { m_nSize := n, m_pData := ConcreateAggregate.fill n 0 (List.replicate n none) } n rfl
    (getItem_fill n) fuel 0 (Nat.zero_le n)
  rw [main, constructor_eq]
  simp only [traverse, ConcreateAggregate.createIterater, ConcreateIterater.ConcreateIterater,
    ConcreateIterater.first]
  rw [upTo, List.range_eq_range']
  simpa using h

/-! ## C19 -/

/-- C19: for every `n ≥ 0`, the aggregate of size `n` is built with
`getItem(i) = i` for `0 ≤ i < n`, and the traversal of `main` over an iterator
created from it ends after exactly `n` runs of the loop body (`n` runs are
enough, fewer are not) having written `0, 1, ..., n - 1` in that order. -/
theorem C19_traversal_yields_zero_to_n (n : Nat) :
    main n (n : Int) = some (upTo n) ∧
      (upTo n).length = n ∧
      (∀ i : Nat, i < n → (upTo n)[i]? = some (i : Int)) ∧
      (∀ fuel : Nat, fuel < n → main fuel (n : Int) = none) ∧
      (∀ fuel : Nat, n ≤ fuel → main fuel (n : Int) = some (upTo n)) ∧
      ∃ pAggregate, ConcreateAggregate.ConcreateAggregate (n : Int) = some pAggregate ∧
        pAggregate.getSize = n ∧
        ∀ i : Int, 0 ≤ i → i < n → pAggregate.getItem i = some i := by
  refine ⟨?_, ?_, ?_, ?_, ?_, ?_⟩
  · rw [main_eq, if_pos (le_refl n)]
  · simp [upTo]
  · intro i hi
    simp [upTo, hi]
  · intro fuel hf
    rw [main_eq, if_neg (by omega)]
  · intro fuel hf
    rw [main_eq, if_pos hf]
  · exact ⟨_, constructor_eq n, rfl, getItem_fill n⟩

/-- C19 (witness): the size 4 of `main`; the traversal writes 0, 1, 2, 3. -/
theorem C19_traversal_yields_zero_to_n_witness :
    main 4 ((4 : Nat) : Int) = some [0, 1, 2, 3] :=
  (C19_traversal_yields_zero_to_n 4).1.trans (by decide)

end IteratorPattern

namespace InterpreterPattern

/-! ## Searching a string -/

theorem find_ne_none_iff (str : List Char) :
    ∀ s : List Char, find s str ≠ none ↔ str <:+: s := by
  intro s
  induction s with
  | nil =>
    rw [find]
    by_cases h : str.isPrefixOf [] = true
    · rw [if_pos h]
      have hp : str <+: [] := List.isPrefixOf_iff_prefix.mp h
      exact ⟨fun _ => hp.isInfix, fun _ => by simp⟩
    · rw [if_neg h]
      refine ⟨fun hne => absurd rfl hne, fun hin => ?_⟩
      have hnil : str = [] := List.infix_nil.mp hin
      subst hnil
      exact absurd (List.isPrefixOf_iff_prefix.mpr (List.prefix_refl [])) h
  | cons c rest ih =>
    rw [find, List.infix_cons_iff]
    by_cases h : str.isPrefixOf (c :: rest) = true
    · rw [if_pos h]
      exact ⟨fun _ => Or.inl (List.isPrefixOf_iff_prefix.mp h), fun _ => by simp⟩
    · rw [if_neg h]
      have hmap : (Option.map (fun pos => pos + 1) (find rest str) ≠ none) ↔
          find rest str ≠ none := by
        cases find rest str <;> simp
      rw [hmap, ih]
      constructor
      · exact fun hin => Or.inr hin
      · rintro (hp | hin)
        · exact absurd (List.isPrefixOf_iff_prefix.mpr hp) h
        · exact hin

theorem interpret_terminal (m_data context : String) :
    (Expression.TerminalExpression m_data).interpret context = true ↔
      m_data.data <:+: context.data := by
  rw [Expression.interpret, ← find_ne_none_iff]
  by_cases h : find context.data m_data.data ≠ none
  · simp [h]
  · simp [h]

/-! ## C20 -/

/-- C20: for every context string, the expression of `getMaleExpression`
interprets to true exactly when `"Robert"` or `"John"` occurs in the context
as a substring, and that of `getMarriedWomanExpression` exactly when both
`"Julie"` and `"Married"` do; the two calls of `main`, on `"John"` and on
`"Married Julie"`, give true. -/
theorem C20_interpret_iff_substring (context : String) :
    (getMaleExpression.interpret context = true ↔
        "Robert".data <:+: context.data ∨ "John".data <:+: context.data) ∧
      (getMarriedWomanExpression.interpret context = true ↔
        "Julie".data <:+: context.data ∧ "Married".data <:+: context.data) ∧
      getMaleExpression.interpret "John" = true ∧
      getMarriedWomanExpression.interpret "Married Julie" = true := by
  refine ⟨?_, ?_, by decide, by decide⟩
  · rw [getMaleExpression]
    simp only [Expression.interpret.eq_2, Bool.or_eq_true, interpret_terminal]
  · rw [getMarriedWomanExpression]
    simp only [Expression.interpret.eq_3, Bool.and_eq_true, interpret_terminal]

end InterpreterPattern

namespace MementoPattern

/-! ## The originator and the caretaker -/

theorem foldl_setState_getStateFromMemento (memento : Memento) (between : List String) :
    ∀ originator : Originator,
      ((between.foldl Originator.setState originator).getStateFromMemento memento).getState =
        memento.getState := by
  intro originator
  rfl

theorem foldl_add (mementos : List Memento) :
    ∀ careTaker : CareTaker,
      (mementos.foldl CareTaker.add careTaker).m_mementoList =
        careTaker.m_mementoList ++ mementos := by
  induction mementos with
  | nil => intro careTaker; simp
  | cons memento rest ih =>
    intro careTaker
    rw [List.foldl_cons, ih]
    simp [CareTaker.add]

/-! ## C21 -/

/-- C21: for every originator, every state `s` and every list of states set in
between, `setState(s)`, `saveStateToMemento()`, the `setState` calls in
between and `getStateFromMemento` of the saved memento leave `getState() = s`;
a caretaker that starts empty and receives a list of mementos through `add`
gives the `i`-th of them on `get(i)`; and `main` reads `"State #2"` from
`get(0)` and `"State #3"` from `get(1)`. -/
theorem C21_memento_restores_saved_state (originator : Originator) (s : String)
    (between : List String) (mementos : List Memento) (i : Nat) :
    ((between.foldl Originator.setState (originator.setState s)).getStateFromMemento
        (originator.setState s).saveStateToMemento).getState = s ∧
      (mementos.foldl CareTaker.add {}).get (i : Int) = mementos[i]? ∧
      main = some ["Current State: State #4", "First saved State: State #2",
        "Second saved State: State #3"] := by
  refine ⟨?_, ?_, by decide⟩
  · rw [foldl_setState_getStateFromMemento]
    rfl
  · rw [CareTaker.get, if_pos (by omega), foldl_add, Int.toNat_ofNat]
    simp

end MementoPattern

namespace NullObjectPattern

/-! ## C22 -/

/-- C22: for every name, `getCustomer(name)` is not the null pointer; the
customer it points to has `isNil() = false` and `getName() = name` exactly
when the name is `"Rob"`, `"Joe"` or `"Julie"`, and for every other name it
has `isNil() = true` and `getName() = "Not Available in Customer Database"`. -/
theorem C22_getCustomer_real_or_null (name : String) :
    ∃ customer, CustomerFactory.getCustomer name = some customer ∧
      ((customer.isNil = false ∧ customer.getName = name) ↔
        (name = "Rob" ∨ name = "Joe" ∨ name = "Julie")) ∧
      (¬ (name = "Rob" ∨ name = "Joe" ∨ name = "Julie") →
        customer.isNil = true ∧
          customer.getName = "Not Available in Customer Database") := by
  by_cases h1 : "Rob" = name
  · refine ⟨RealCustomer.RealCustomer name, ?_, ?_, ?_⟩
    · simp [CustomerFactory.getCustomer, CustomerFactory.names,
        CustomerFactory.getCustomerFrom, h1]
    · exact ⟨fun _ => Or.inl h1.symm, fun _ => ⟨rfl, rfl⟩⟩
    · intro h; exact absurd (Or.inl h1.symm) h
  · by_cases h2 : "Joe" = name
    · refine ⟨RealCustomer.RealCustomer name, ?_, ?_, ?_⟩
      · simp [CustomerFactory.getCustomer, CustomerFactory.names,
          CustomerFactory.getCustomerFrom, h1, h2]
      · exact ⟨fun _ => Or.inr (Or.inl h2.symm), fun _ => ⟨rfl, rfl⟩⟩
      · intro h; exact absurd (Or.inr (Or.inl h2.symm)) h
    · by_cases h3 : "Julie" = name
      · refine ⟨RealCustomer.RealCustomer name, ?_, ?_, ?_⟩
        · simp [CustomerFactory.getCustomer, CustomerFactory.names,
            CustomerFactory.getCustomerFrom, h1, h2, h3]
        · exact ⟨fun _ => Or.inr (Or.inr h3.symm), fun _ => ⟨rfl, rfl⟩⟩
        · intro h; exact absurd (Or.inr (Or.inr h3.symm)) h
      · have hnot : ¬ (name = "Rob" ∨ name = "Joe" ∨ name = "Julie") := by
          rintro (h | h | h)
          · exact h1 h.symm
          · exact h2 h.symm
          · exact h3 h.symm
        refine ⟨NullCustomer.NullCustomer, ?_, ?_, ?_⟩
        · simp [CustomerFactory.getCustomer, CustomerFactory.names,
            CustomerFactory.getCustomerFrom, h1, h2, h3]
        · constructor
          · intro h
            have hnil : NullCustomer.NullCustomer.isNil = true := rfl
            rw [hnil] at h
            exact absurd h.1 (by decide)
          · intro h; exact absurd h hnot
        · intro _; exact ⟨rfl, rfl⟩

end NullObjectPattern

namespace ChainOfResponsibilityPattern

/-! ## C23 -/

/-- C23: in the chain `monitor`, `captain`, `general` of `main`, a request of
level `One` is handled by the monitor, of level `Two` by the captain and of
level `Three` by the general; every level gets exactly one line, so the call
never goes through the null successor of the general; and the captain and the
general, asked directly, would have handled level `One` too, so the handler
chosen is the first one able. -/
theorem C23_chain_first_able_handler :
    monitor.handleRequest RequestLevel.One = some ["Mointor handle request : 1"] ∧
      monitor.handleRequest RequestLevel.Two = some ["Captain handle request : 2"] ∧
      monitor.handleRequest RequestLevel.Three = some ["General handle request : 3"] ∧
      (∀ level : RequestLevel, ∃ line, monitor.handleRequest level = some [line]) ∧
      captain.handleRequest RequestLevel.One = some ["Captain handle request : 1"] ∧
      general.handleRequest RequestLevel.One = some ["General handle request : 1"] ∧
      general.handleRequest RequestLevel.Two = some ["General handle request : 2"] := by
  refine ⟨by decide, by decide, by decide, ?_, by decide, by decide, by decide⟩
  intro level
  cases level
  · exact ⟨_, rfl⟩
  · exact ⟨_, rfl⟩
  · exact ⟨_, rfl⟩

end ChainOfResponsibilityPattern

namespace FlyweightPattern

/-! ## One call and a sequence of calls -/

theorem getCircle_seen (created : List String) (color : String) (h : color ∈ created) :
    ShapeFactory.getCircle { m_circleMap := tableOf created } (heapOf created) color =
      { this := { m_circleMap := tableOf created }, heap := heapOf created,
        circle := some (created.indexOf color), out := [] } := by
  have hlook : tableOf created color = some (some (created.indexOf color)) := by
    simp [tableOf, h]
  simp [ShapeFactory.getCircle, CircleMap.subscript, hlook]

theorem tableOf_append (created : List String) (color : String) (h : color ∉ created) :
    CircleMap.assign (fun k => if k = color then some none else tableOf created k) color
        (some created.length) = tableOf (created ++ [color]) := by
  funext k
  by_cases hk : k = color
  · subst hk
    simp [CircleMap.assign, tableOf, List.indexOf_append_of_not_mem h]
  · by_cases hmem : k ∈ created
    · simp [CircleMap.assign, tableOf, hk, hmem, List.indexOf_append_of_mem hmem]
    · simp [CircleMap.assign, tableOf, hk, hmem]

theorem getCircle_new (created : List String) (color : String) (h : color ∉ created) :
    ShapeFactory.getCircle { m_circleMap := tableOf created } (heapOf created) color =
      { this := { m_circleMap := tableOf (created ++ [color]) },
        heap := heapOf (created ++ [color]),
        circle := some created.length,
        out := ["=================Creating circle of color : " ++ color] } := by
  have hlook : tableOf created color = none := by simp [tableOf, h]
  have hlen : (heapOf created).length = created.length := by simp [heapOf]
  simp only [ShapeFactory.getCircle, CircleMap.subscript, hlook, if_true, hlen,
    tableOf_append created color h]
  simp [heapOf]

theorem getCircles_eq (rest : List String) :
    ∀ created : List String,
      getCircles { m_circleMap := tableOf created } (heapOf created) rest =
        { this := { m_circleMap := tableOf (created ++ firstRequests created rest) },
          heap := heapOf (created ++ firstRequests created rest),
          circles := rest.map
            (fun c => some ((created ++ firstRequests created rest).indexOf c)),
          out := (firstRequests created rest).map
            (fun c => "=================Creating circle of color : " ++ c) } := by
  induction rest with
  | nil => intro created; simp [getCircles, firstRequests]
  | cons color rest ih =>
    intro created
    by_cases h : color ∈ created
    · rw [getCircles, getCircle_seen created color h]
      simp only [ih created, firstRequests, if_pos h, List.map_cons, List.nil_append,
        List.indexOf_append_of_mem h]
    · have hin : color ∈ created ++ [color] := by simp
      rw [getCircles, getCircle_new created color h]
      simp only [ih (created ++ [color]), firstRequests, if_neg h, List.map_cons,
        List.append_assoc, List.singleton_append, List.cons_append, List.nil_append]
      have hidx : List.indexOf color (created ++ color :: firstRequests (created ++ [color]) rest)
          = created.length := by
        rw [List.indexOf_append_of_not_mem h, List.indexOf_cons_self]
        rfl
      rw [hidx]

theorem mem_firstRequests (rest : List String) :
    ∀ (seen : List String) (x : String),
      x ∈ firstRequests seen rest ↔ x ∈ rest ∧ x ∉ seen := by
  induction rest with
  | nil => intro seen x; simp [firstRequests]
  | cons color rest ih =>
    intro seen x
    by_cases h : color ∈ seen
    · rw [firstRequests, if_pos h, ih, List.mem_cons]
      constructor
      · rintro ⟨hx, hs⟩; exact ⟨Or.inr hx, hs⟩
      · rintro ⟨hx | hx, hs⟩
        · exact absurd (hx ▸ h) hs
        · exact ⟨hx, hs⟩
    · rw [firstRequests, if_neg h, List.mem_cons, ih, List.mem_cons, List.mem_append,
        List.mem_singleton]
      constructor
      · rintro (hx | ⟨hx, hs⟩)
        · exact ⟨Or.inl hx, hx ▸ h⟩
        · exact ⟨Or.inr hx, fun hmem => hs (Or.inl hmem)⟩
      · rintro ⟨hx | hx, hs⟩
        · exact Or.inl hx
        · by_cases hxc : x = color
          · exact Or.inl hxc
          · exact Or.inr ⟨hx, fun hmem => hmem.elim hs hxc⟩

theorem nodup_firstRequests (rest : List String) :
    ∀ seen : List String, (firstRequests seen rest).Nodup := by
  induction rest with
  | nil => intro seen; simp [firstRequests]
  | cons color rest ih =>
    intro seen
    by_cases h : color ∈ seen
    · rw [firstRequests, if_pos h]; exact ih seen
    · rw [firstRequests, if_neg h, List.nodup_cons]
      refine ⟨fun hmem => ?_, ih _⟩
      have := ((mem_firstRequests rest _ color).mp hmem).2
      exact this (by simp)

theorem length_firstRequests (colors : List String) :
    (firstRequests [] colors).length = colors.dedup.length := by
  apply List.Perm.length_eq
  rw [List.perm_ext_iff_of_nodup (nodup_firstRequests colors []) (List.nodup_dedup colors)]
  intro x
  rw [mem_firstRequests, List.mem_dedup]
  simp

theorem tableOf_nil : ({} : ShapeFactory) = { m_circleMap := tableOf [] } := by
  have : (fun _ => none : CircleMap) = tableOf [] := by
    funext k
    simp [tableOf]
  show ({ m_circleMap := fun _ => none } : ShapeFactory) = _
  rw [this]

theorem getCircles_empty (colors : List String) :
    getCircles {} [] colors =
      { this := { m_circleMap := tableOf (firstRequests [] colors) },
        heap := heapOf (firstRequests [] colors),
        circles := colors.map (fun c => some ((firstRequests [] colors).indexOf c)),
        out := (firstRequests [] colors).map
          (fun c => "=================Creating circle of color : " ++ c) } := by
  have h := getCircles_eq colors []
  rw [tableOf_nil]
  simpa [heapOf] using h

theorem served_eq (colors : List String) :
    served colors =
      { this := { m_circleMap := tableOf (firstRequests [] colors) },
        heap := heapOf (firstRequests [] colors),
        circles := colors.map (fun c => some ((firstRequests [] colors).indexOf c)),
        out := (firstRequests [] colors).map
          (fun c => "=================Creating circle of color : " ++ c) } :=
  getCircles_empty colors

theorem mem_firstRequests_nil (colors : List String) (x : String) :
    x ∈ firstRequests [] colors ↔ x ∈ colors := by
  rw [mem_firstRequests]
  simp

/-! ## C24 -/

/-- C24: a fresh factory serves one `getCircle` call per colour of a list.
The circles built and the creation lines written are as many as the distinct
colours of the list, one line per colour in the order of the first requests.
Two calls return the same pointer exactly when they ask for the same colour,
and the pointer is to a circle of that colour.  A further call for a colour
asked before returns the pointer stored for it, the one every earlier call
for that colour returned, builds nothing, writes nothing and leaves the map
as it was; a further call for a colour not asked before finds no entry,
builds one circle of that colour, stores its pointer, and writes the creation
line. -/
theorem C24_getCircle_shares_by_color (colors : List String) (color : String) :
    (served colors).heap.length = colors.dedup.length ∧
      (served colors).out = (firstRequests [] colors).map
        (fun c => "=================Creating circle of color : " ++ c) ∧
      (served colors).out.length = colors.dedup.length ∧
      (served colors).circles.length = colors.length ∧
      (∀ i j : Nat, i < colors.length → j < colors.length →
        ((served colors).circles[i]? = (served colors).circles[j]? ↔
          colors[i]? = colors[j]?)) ∧
      (∀ i : Nat, i < colors.length → ∃ a,
        (served colors).circles[i]? = some (some a) ∧
          ((served colors).heap[a]?).map Circle.m_color = colors[i]?) ∧
      (color ∈ colors → ∃ a,
        (served colors).this.m_circleMap color = some (some a) ∧
        (∀ i : Nat, colors[i]? = some color → (served colors).circles[i]? = some (some a)) ∧
        ((served colors).this.getCircle (served colors).heap color).circle = some a ∧
        ((served colors).this.getCircle (served colors).heap color).out = [] ∧
        ((served colors).this.getCircle (served colors).heap color).heap =
          (served colors).heap ∧
        ((served colors).this.getCircle (served colors).heap color).this.m_circleMap =
          (served colors).this.m_circleMap) ∧
      (color ∉ colors →
        (served colors).this.m_circleMap color = none ∧
        ((served colors).this.getCircle (served colors).heap color).circle =
          some (served colors).heap.length ∧
        ((served colors).this.getCircle (served colors).heap color).out =
          ["=================Creating circle of color : " ++ color] ∧
        ((served colors).this.getCircle (served colors).heap color).heap =
          (served colors).heap ++ [Circle.Circle color] ∧
        ((served colors).this.getCircle (served colors).heap color).this.m_circleMap color =
          some (some (served colors).heap.length)) := by
  have hmem := mem_firstRequests_nil colors
  rw [served_eq]
  refine ⟨?_, rfl, ?_, ?_, ?_, ?_, ?_, ?_⟩
  · simp [heapOf, length_firstRequests]
  · simp [length_firstRequests]
  · simp
  · intro i j hi hj
    have hci : colors[i] ∈ firstRequests [] colors :=
      (hmem _).mpr (List.getElem_mem hi)
    have hcj : colors[j] ∈ firstRequests [] colors :=
      (hmem _).mpr (List.getElem_mem hj)
    simp only [List.getElem?_map, List.getElem?_eq_getElem hi, List.getElem?_eq_getElem hj,
      Option.map_some', Option.some.injEq]
    exact List.indexOf_inj hci hcj
  · intro i hi
    have hci : colors[i] ∈ firstRequests [] colors :=
      (hmem _).mpr (List.getElem_mem hi)
    refine ⟨(firstRequests [] colors).indexOf colors[i], ?_, ?_⟩
    · simp [List.getElem?_eq_getElem hi]
    · have hlt : List.indexOf colors[i] (firstRequests [] colors) <
          (firstRequests [] colors).length := List.indexOf_lt_length.mpr hci
      simp [heapOf, List.getElem?_eq_getElem hi, List.getElem?_eq_getElem hlt, Circle.Circle]
  · intro hc
    have hcd : color ∈ firstRequests [] colors := (hmem _).mpr hc
    refine ⟨(firstRequests [] colors).indexOf color, ?_, ?_, ?_⟩
    · simp [tableOf, hcd]
    · intro i hi
      simp only [List.getElem?_map, hi, Option.map_some']
    · rw [getCircle_seen _ color hcd]
      exact ⟨rfl, rfl, rfl, rfl⟩
  · intro hc
    have hcd : color ∉ firstRequests [] colors := fun h => hc ((hmem _).mp h)
    refine ⟨?_, ?_⟩
    · simp [tableOf, hcd]
    · rw [getCircle_new _ color hcd]
      refine ⟨by simp [heapOf], rfl, by simp [heapOf], ?_⟩
      simp [tableOf, heapOf, List.indexOf_append_of_not_mem hcd]

/-- C24 (witness): the requests Red, Green, Red build two circles and return
the first pointer again on the third call, with two creation lines. -/
theorem C24_getCircle_shares_by_color_witness :
    (served ["Red", "Green", "Red"]).heap.length =
        (["Red", "Green", "Red"] : List String).dedup.length ∧
      (served ["Red", "Green", "Red"]).circles = [some 0, some 1, some 0] ∧
      (served ["Red", "Green", "Red"]).out =
        ["=================Creating circle of color : Red",
          "=================Creating circle of color : Green"] :=
  ⟨(C24_getCircle_shares_by_color ["Red", "Green", "Red"] "Red").1, by decide, by decide⟩

end FlyweightPattern

namespace StatePattern
open State Stimulus

/-! ## C25 -/

/-- C25: the scenario of `main`.  Built with 1 tissue, the machine has count 0
after `insertQuarter(); turnCrank();`; the `turnCrank()` without a coin that
follows only asks for a coin and leaves count 0; `insertQuarter();
turnCrank();` after that hands out nothing, writes the refund / sold-out line
and ends in `soldOutState` with count 0.  In general a machine in
`noQuarterState` with count 0 ends in `soldOutState` with count 0 after
`insertQuarter(); turnCrank();`, and the tissue line is not among the lines
written. -/
theorem C25_driver_scenario :
    main = some ["纸巾数：1", "已投币！", "请等待自动售货机出纸巾！", "你的纸巾，请拿好！",
        "纸巾数：0", "请投币", "纸巾数：0", "已投币！", "请等待自动售货机出纸巾！",
        "已退回你的硬币！纸巾已卖光，等待进货！"] ∧
      run (TissueMachine.TissueMachine 1) [insertQuarter, turnCrank] =
        some (⟨some noQuarterState, 0⟩,
          ["已投币！", "请等待自动售货机出纸巾！", "你的纸巾，请拿好！"]) ∧
      run ⟨some noQuarterState, 0⟩ [turnCrank] =
        some (⟨some noQuarterState, 0⟩, ["请投币"]) ∧
      run ⟨some noQuarterState, 0⟩ [insertQuarter, turnCrank] =
        some (⟨some soldOutState, 0⟩,
          ["已投币！", "请等待自动售货机出纸巾！",
            "已退回你的硬币！纸巾已卖光，等待进货！"]) ∧
      (∃ r, run ⟨some noQuarterState, 0⟩ [insertQuarter, turnCrank] = some r ∧
        r.1 = ⟨some soldOutState, 0⟩ ∧ "你的纸巾，请拿好！" ∉ r.2) ∧
      run (TissueMachine.TissueMachine 1)
          [insertQuarter, turnCrank, turnCrank, insertQuarter, turnCrank] =
        some (⟨some soldOutState, 0⟩,
          ["已投币！", "请等待自动售货机出纸巾！", "你的纸巾，请拿好！", "请投币",
            "已投币！", "请等待自动售货机出纸巾！",
            "已退回你的硬币！纸巾已卖光，等待进货！"]) := by
  refine ⟨by decide, by decide, by decide, by decide, ⟨_, rfl, by decide, by decide⟩,
    by decide⟩

end StatePattern
